import Mathlib

/-!
Shallow embedding of the irs-tax-calculator backend core
(`src/backend/src`) in Lean 4, together with proofs checking the
natural-language specification against it.

Python `Decimal` values are modelled as exact rationals (`ℚ`); every
`quantize(TWO_PLACES, ROUND_HALF_UP)` in the source appears as an
explicit `quantize2`, and `Decimal.to_integral_value(ROUND_HALF_UP)`
as `roundHalfUpZ`.  Functions that raise `ValueError` on invalid
arguments return `Except CalcError _`.
-/

/-- Round a rational to the nearest integer, ties away from zero
(Python `decimal.ROUND_HALF_UP`). -/
def roundHalfUpZ (x : ℚ) : ℤ :=
if 0 ≤ x then ⌊x + 1/2⌋ else -⌊-x + 1/2⌋

/-- `Decimal.quantize(Decimal("0.01"), rounding=ROUND_HALF_UP)`. -/
def quantize2 (x : ℚ) : ℚ :=
(roundHalfUpZ (x * 100) : ℚ) / 100

/-- `Decimal.quantize(Decimal("0.000001"), rounding=ROUND_HALF_UP)` —
used for effective rates. -/
def quantize6 (x : ℚ) : ℚ :=
(roundHalfUpZ (x * 1000000) : ℚ) / 1000000

/-- A value is a whole number of cents (the spec's fixed-point,
two-decimal data model). -/
def Cents (x : ℚ) : Prop :=
∃ n : ℤ, x = (n : ℚ) / 100

/-- `FilingStatus` — closed enumeration of the five variants
(`src/models/filing_status.py`). -/
inductive FilingStatus where
| single
| marriedFilingJointly
| marriedFilingSeparately
| headOfHousehold
| qualifyingSurvivingSpouse
deriving DecidableEq, Repr

/-- Error kinds for the `ValueError`s raised by the tools. -/
inductive CalcError where
| negativeTaxableIncome
| negativeW2Wages
| negativeSelfEmploymentIncome
| negativeMagi
| negativeNetInvestmentIncome
| negativeQualifiedDividends
| negativeOrdinaryIncome
| negativeCreditAmount
deriving DecidableEq, Repr

/-- `FEDERAL_BRACKETS` from `src/data/tax_year_2024.py`:
(upper bound, rate) pairs, `none` = unbounded top bracket. -/
def FEDERAL_BRACKETS : FilingStatus → List (Option ℚ × ℚ)
| .single =>
  [(some 11600, 0.10), (some 47150, 0.12), (some 100525, 0.22),
   (some 191950, 0.24), (some 243725, 0.32), (some 609350, 0.35),
   (none, 0.37)]
| .marriedFilingJointly =>
  [(some 23200, 0.10), (some 94300, 0.12), (some 201050, 0.22),
   (some 383900, 0.24), (some 487450, 0.32), (some 731200, 0.35),
   (none, 0.37)]
| .marriedFilingSeparately =>
  [(some 11600, 0.10), (some 47150, 0.12), (some 100525, 0.22),
   (some 191950, 0.24), (some 243725, 0.32), (some 365600, 0.35),
   (none, 0.37)]
| .headOfHousehold =>
  [(some 16550, 0.10), (some 63100, 0.12), (some 100500, 0.22),
   (some 191950, 0.24), (some 243700, 0.32), (some 609350, 0.35),
   (none, 0.37)]
| .qualifyingSurvivingSpouse =>
  [(some 23200, 0.10), (some 94300, 0.12), (some 201050, 0.22),
   (some 383900, 0.24), (some 487450, 0.32), (some 731200, 0.35),
   (none, 0.37)]

/-- `STANDARD_DEDUCTION` table. -/
def STANDARD_DEDUCTION : FilingStatus → ℚ
| .single => 14600
| .marriedFilingJointly => 29200
| .marriedFilingSeparately => 14600
| .headOfHousehold => 21900
| .qualifyingSurvivingSpouse => 29200

def ADDITIONAL_DEDUCTION_SINGLE_HOH : ℚ := 1950

def ADDITIONAL_DEDUCTION_MARRIED : ℚ := 1550

/-- `CAPITAL_GAINS_THRESHOLDS` — three 0%/15%/20% tiers per status. -/
def CAPITAL_GAINS_THRESHOLDS : FilingStatus → List (Option ℚ × ℚ)
| .single => [(some 47025, 0), (some 518900, 0.15), (none, 0.20)]
| .marriedFilingJointly => [(some 94050, 0), (some 583750, 0.15), (none, 0.20)]
| .marriedFilingSeparately => [(some 47025, 0), (some 291850, 0.15), (none, 0.20)]
| .headOfHousehold => [(some 63000, 0), (some 551350, 0.15), (none, 0.20)]
| .qualifyingSurvivingSpouse => [(some 94050, 0), (some 583750, 0.15), (none, 0.20)]

def NIIT_RATE : ℚ := 0.038

def NIIT_THRESHOLDS : FilingStatus → ℚ
| .single => 200000
| .marriedFilingJointly => 250000
| .marriedFilingSeparately => 125000
| .headOfHousehold => 200000
| .qualifyingSurvivingSpouse => 250000

def SOCIAL_SECURITY_WAGE_BASE : ℚ := 168600

def SOCIAL_SECURITY_RATE_EMPLOYEE : ℚ := 0.062

def MEDICARE_RATE_EMPLOYEE : ℚ := 0.0145

def ADDITIONAL_MEDICARE_RATE : ℚ := 0.009

def ADDITIONAL_MEDICARE_THRESHOLDS : FilingStatus → ℚ
| .single => 200000
| .marriedFilingJointly => 250000
| .marriedFilingSeparately => 125000
| .headOfHousehold => 200000
| .qualifyingSurvivingSpouse => 250000

def SE_TAXABLE_FRACTION : ℚ := 0.9235

def SE_SS_RATE : ℚ := 0.124

def SE_MEDICARE_RATE : ℚ := 0.029

def SE_DEDUCTIBLE_FRACTION : ℚ := 0.5

def CHILD_TAX_CREDIT_MAX : ℚ := 2000

def CHILD_TAX_CREDIT_REFUNDABLE : ℚ := 1700

def CHILD_TAX_CREDIT_PHASEOUT : FilingStatus → ℚ
| .single => 200000
| .marriedFilingJointly => 400000
| .marriedFilingSeparately => 200000
| .headOfHousehold => 200000
| .qualifyingSurvivingSpouse => 400000

/-- `BracketDetail` (`src/models/tax_output.py`). -/
structure BracketDetail where
  rate : ℚ
  bracket_bottom : ℚ
  bracket_top : Option ℚ
  taxable_in_bracket : ℚ
  tax_in_bracket : ℚ
deriving DecidableEq, Repr

/-- `BracketTaxResult` (`src/models/tax_output.py`). -/
structure BracketTaxResult where
  taxable_income : ℚ
  filing_status : FilingStatus
  total_tax : ℚ
  effective_rate : ℚ
  marginal_rate : ℚ
  breakdown : List BracketDetail
deriving DecidableEq, Repr

/-- The bracket walk of `calculate_bracket_tax`
(`src/tools/calculate_bracket_tax.py`), recursing over the bracket
table with the cumulative lower bound `prev_top` and the running
marginal rate.  Returns (breakdown, raw total tax, marginal rate). -/
def bracketGo (taxable_income : ℚ) :
    List (Option ℚ × ℚ) → ℚ → ℚ → List BracketDetail × ℚ × ℚ
| [], _, marginal => ([], 0, marginal)
| (upper_bound, rate) :: rest, prev_top, marginal =>
  if taxable_income ≤ prev_top then ([], 0, marginal)
  else
    let taxable_in_bracket :=
      match upper_bound with
      | none => taxable_income - prev_top
      | some ub => min taxable_income ub - prev_top
    let tax_in_bracket := quantize2 (taxable_in_bracket * rate)
    let next_top :=
      match upper_bound with
      | none => taxable_income
      | some ub => ub
    let r := bracketGo taxable_income rest next_top rate
    (⟨rate, prev_top, upper_bound, taxable_in_bracket, tax_in_bracket⟩ :: r.1,
     tax_in_bracket + r.2.1, r.2.2)

/-- `calculate_bracket_tax` — progressive tax on ordinary income.
Raises (returns `.error`) on negative income. -/
def calculate_bracket_tax (taxable_income : ℚ) (filing_status : FilingStatus) :
    Except CalcError BracketTaxResult :=
if taxable_income < 0 then .error .negativeTaxableIncome
else
  let r := bracketGo taxable_income (FEDERAL_BRACKETS filing_status) 0 0.10
  let effective_rate :=
    if 0 < taxable_income then quantize6 (r.2.1 / taxable_income) else 0
  .ok ⟨taxable_income, filing_status, quantize2 r.2.1, effective_rate, r.2.2, r.1⟩

/-- `PreferentialRateDetail` (`src/models/tax_output.py`). -/
structure PreferentialRateDetail where
  rate : ℚ
  bracket_bottom : ℚ
  bracket_top : Option ℚ
  taxable_in_bracket : ℚ
  tax_in_bracket : ℚ
deriving DecidableEq, Repr

/-- The stacking walk of `calculate_preferential_rate_tax`
(`src/tools/preferential_rate.py`): cursor `income_so_far` tracks
income already placed; each tier's room is `upper − cursor` (unbounded
top tier = remaining).  Returns (raw total tax, breakdown). -/
def prefGo : List (Option ℚ × ℚ) → ℚ → ℚ → ℚ × List PreferentialRateDetail
| [], _, _ => (0, [])
| (upper_bound, rate) :: rest, remaining, income_so_far =>
  if remaining ≤ 0 then (0, [])
  else
    let room :=
      match upper_bound with
      | none => remaining
      | some ub => max (ub - income_so_far) 0
    if room ≤ 0 then
      let cursor :=
        match upper_bound with
        | none => income_so_far
        | some ub => max income_so_far ub
      prefGo rest remaining cursor
    else
      let taxable_in_bracket := min remaining room
      let tax_in_bracket := quantize2 (taxable_in_bracket * rate)
      let r := prefGo rest (remaining - taxable_in_bracket)
        (income_so_far + taxable_in_bracket)
      (tax_in_bracket + r.1,
       ⟨rate, income_so_far, upper_bound, taxable_in_bracket, tax_in_bracket⟩ :: r.2)

/-- `calculate_preferential_rate_tax` — 0%/15%/20% rates applied to
`amount` stacked on top of `ordinary_income`.  `amount ≤ 0` returns
zero/empty immediately. -/
def calculate_preferential_rate_tax (amount ordinary_income : ℚ)
    (filing_status : FilingStatus) : ℚ × List PreferentialRateDetail :=
if amount ≤ 0 then (0, [])
else
  let r := prefGo (CAPITAL_GAINS_THRESHOLDS filing_status) amount ordinary_income
  (quantize2 r.1, r.2)

/-- `StandardDeductionResult` (`src/models/tax_output.py`). -/
structure StandardDeductionResult where
  filing_status : FilingStatus
  base_amount : ℚ
  additional_amount : ℚ
  total_deduction : ℚ
deriving DecidableEq, Repr

/-- Membership in `_SINGLE_HOH` (`src/tools/lookup_standard_deduction.py`):
the statuses using the Single/HoH additional-deduction amount. -/
def inSingleHoH : FilingStatus → Bool
| .single => true
| .headOfHousehold => true
| _ => false

/-- `lookup_standard_deduction` (`src/tools/lookup_standard_deduction.py`):
base + per-condition additional amount for age/blindness. -/
def lookup_standard_deduction (filing_status : FilingStatus)
    (is_blind is_over_65 : Bool) : StandardDeductionResult :=
  let base := STANDARD_DEDUCTION filing_status
  let per_condition :=
    if inSingleHoH filing_status then
      ADDITIONAL_DEDUCTION_SINGLE_HOH
    else ADDITIONAL_DEDUCTION_MARRIED
  let qualifying_conditions : ℚ :=
    (if is_blind then 1 else 0) + (if is_over_65 then 1 else 0)
  let additional := per_condition * qualifying_conditions
  ⟨filing_status, base, additional, base + additional⟩

/-- `FicaResult` (`src/models/tax_output.py`). -/
structure FicaResult where
  ss_tax : ℚ
  medicare_tax : ℚ
  additional_medicare_tax : ℚ
  se_tax : ℚ
  se_tax_deduction : ℚ
  total_fica : ℚ
deriving DecidableEq, Repr

/-- Straight-line body of `calculate_fica`
(`src/tools/calculate_fica.py`), after the input-validation guards. -/
def ficaCore (w2_wages self_employment_income : ℚ)
    (filing_status : FilingStatus) : FicaResult :=
  let ss_wages := min w2_wages SOCIAL_SECURITY_WAGE_BASE
  let w2_ss_tax := quantize2 (ss_wages * SOCIAL_SECURITY_RATE_EMPLOYEE)
  let w2_medicare_tax := quantize2 (w2_wages * MEDICARE_RATE_EMPLOYEE)
  let se_base :=
    if 0 < self_employment_income then
      quantize2 (self_employment_income * SE_TAXABLE_FRACTION)
    else 0
  let remaining_ss_base := max (SOCIAL_SECURITY_WAGE_BASE - w2_wages) 0
  let se_ss_wages := min se_base remaining_ss_base
  let se_ss_tax :=
    if 0 < self_employment_income then quantize2 (se_ss_wages * SE_SS_RATE)
    else 0
  let se_medicare_tax :=
    if 0 < self_employment_income then quantize2 (se_base * SE_MEDICARE_RATE)
    else 0
  let se_tax := if 0 < self_employment_income then se_ss_tax + se_medicare_tax else 0
  let additional_medicare_threshold := ADDITIONAL_MEDICARE_THRESHOLDS filing_status
  let se_base_for_amt :=
    if 0 < self_employment_income then
      quantize2 (self_employment_income * SE_TAXABLE_FRACTION)
    else 0
  let combined_for_medicare := w2_wages + se_base_for_amt
  let excess_medicare := max (combined_for_medicare - additional_medicare_threshold) 0
  let additional_medicare := quantize2 (excess_medicare * ADDITIONAL_MEDICARE_RATE)
  let se_tax_deduction := quantize2 (se_tax * SE_DEDUCTIBLE_FRACTION)
  let total_fica := w2_ss_tax + w2_medicare_tax + se_tax + additional_medicare
  ⟨quantize2 (w2_ss_tax + se_ss_tax),
   quantize2 (w2_medicare_tax + se_medicare_tax),
   additional_medicare,
   se_tax,
   se_tax_deduction,
   quantize2 total_fica⟩

/-- `calculate_fica` — raises on negative wages or SE income, then runs
the straight-line body `ficaCore`. -/
def calculate_fica (w2_wages self_employment_income : ℚ)
    (filing_status : FilingStatus) : Except CalcError FicaResult :=
if w2_wages < 0 then .error .negativeW2Wages
else if self_employment_income < 0 then .error .negativeSelfEmploymentIncome
else .ok (ficaCore w2_wages self_employment_income filing_status)

/-- `NiitResult` (`src/models/tax_output.py`). -/
structure NiitResult where
  magi : ℚ
  threshold : ℚ
  excess_magi : ℚ
  net_investment_income : ℚ
  niit : ℚ
deriving DecidableEq, Repr

/-- `calculate_niit` (`src/tools/calculate_niit.py`): 3.8% on the lesser
of net investment income and the MAGI excess over the threshold. -/
def calculate_niit (magi net_investment_income : ℚ)
    (filing_status : FilingStatus) : Except CalcError NiitResult :=
if magi < 0 then .error .negativeMagi
else if net_investment_income < 0 then .error .negativeNetInvestmentIncome
else
  let threshold := NIIT_THRESHOLDS filing_status
  let excess_magi := max (magi - threshold) 0
  let taxable_base := min net_investment_income excess_magi
  let niit := quantize2 (taxable_base * NIIT_RATE)
  .ok ⟨magi, threshold, excess_magi, net_investment_income, niit⟩

/-- `CreditResult` (`src/models/tax_output.py`). -/
structure CreditResult where
  tax_before : ℚ
  credit_applied : ℚ
  tax_after : ℚ
deriving DecidableEq, Repr

/-- `apply_credit` (`src/tools/apply_credit.py`): non-refundable credits
floor tax at 0; refundable credits may drive it negative. -/
def apply_credit (tax_owed credit_amount : ℚ) (is_refundable : Bool) :
    Except CalcError CreditResult :=
if credit_amount < 0 then .error .negativeCreditAmount
else
  let tax_after₀ := tax_owed - credit_amount
  let tax_after := if is_refundable then tax_after₀ else max tax_after₀ 0
  let credit_applied := quantize2 (tax_owed - tax_after)
  .ok ⟨quantize2 tax_owed, credit_applied, quantize2 tax_after⟩

/-- `GrossIncome` (`src/models/tax_input.py`). -/
structure GrossIncome where
  w2_wages : ℚ
  nec_1099 : ℚ
  interest_income : ℚ
  ordinary_dividends : ℚ
  qualified_dividends : ℚ
  short_term_gains : ℚ
  long_term_gains : ℚ
deriving DecidableEq, Repr

/-- `AboveLineDeductions` (`src/models/tax_input.py`). -/
structure AboveLineDeductions where
  educator_expenses : ℚ := 0
  student_loan_interest : ℚ := 0
  hsa_deduction : ℚ := 0
  ira_deduction : ℚ := 0
  se_tax_deduction : ℚ := 0
  self_employed_health_insurance : ℚ := 0
  penalty_early_withdrawal : ℚ := 0
  alimony_paid : ℚ := 0
deriving DecidableEq, Repr

/-- `AGIResult` (`src/models/tax_output.py`). -/
structure AGIResult where
  total_gross_income : ℚ
  total_above_line_deductions : ℚ
  agi : ℚ
deriving DecidableEq, Repr

/-- `calculate_agi` (`src/tools/calculate_agi.py`): sum income, subtract
above-the-line deductions, floor at 0. -/
def calculate_agi (gross_income : GrossIncome)
    (above_line_deductions : AboveLineDeductions) : AGIResult :=
  let total_income :=
    gross_income.w2_wages + gross_income.nec_1099 + gross_income.interest_income
    + gross_income.ordinary_dividends + gross_income.short_term_gains
    + gross_income.long_term_gains
  let total_deductions :=
    above_line_deductions.educator_expenses
    + above_line_deductions.student_loan_interest
    + above_line_deductions.hsa_deduction
    + above_line_deductions.ira_deduction
    + above_line_deductions.se_tax_deduction
    + above_line_deductions.self_employed_health_insurance
    + above_line_deductions.penalty_early_withdrawal
    + above_line_deductions.alimony_paid
  let agi := max (total_income - total_deductions) 0
  ⟨quantize2 total_income, quantize2 total_deductions, quantize2 agi⟩

/-- `CapitalGainsTaxResult` (`src/models/tax_output.py`). -/
structure CapitalGainsTaxResult where
  short_term_gains : ℚ
  long_term_gains : ℚ
  long_term_tax : ℚ
  breakdown : List PreferentialRateDetail
deriving DecidableEq, Repr

/-- `calculate_capital_gains_tax` (`src/tools/calculate_capital_gains_tax.py`). -/
def calculate_capital_gains_tax (short_term_gains long_term_gains ordinary_income : ℚ)
    (filing_status : FilingStatus) : Except CalcError CapitalGainsTaxResult :=
if ordinary_income < 0 then .error .negativeOrdinaryIncome
else
  let r := calculate_preferential_rate_tax long_term_gains ordinary_income filing_status
  .ok ⟨short_term_gains, long_term_gains, r.1, r.2⟩

/-- `QualifiedDividendTaxResult` (`src/models/tax_output.py`). -/
structure QualifiedDividendTaxResult where
  qualified_dividends : ℚ
  tax : ℚ
  breakdown : List PreferentialRateDetail
deriving DecidableEq, Repr

/-- `calculate_qualified_dividend_tax` (`src/tools/calculate_qualified_dividend_tax.py`). -/
def calculate_qualified_dividend_tax (qualified_dividends ordinary_income : ℚ)
    (filing_status : FilingStatus) : Except CalcError QualifiedDividendTaxResult :=
if qualified_dividends < 0 then .error .negativeQualifiedDividends
else if ordinary_income < 0 then .error .negativeOrdinaryIncome
else
  let r := calculate_preferential_rate_tax qualified_dividends ordinary_income filing_status
  .ok ⟨qualified_dividends, r.1, r.2⟩

/-- `W2Income` (`src/models/workflow_models.py`); only the boxes the
pipeline reads (wages, federal withholding) are modelled. -/
structure W2Income where
  wages : ℚ := 0
  federal_withholding : ℚ := 0
deriving DecidableEq, Repr

/-- `Income1099NEC` (`src/models/workflow_models.py`). -/
structure Income1099NEC where
  compensation : ℚ := 0
deriving DecidableEq, Repr

/-- `Income1099INT` (`src/models/workflow_models.py`). -/
structure Income1099INT where
  interest : ℚ := 0
deriving DecidableEq, Repr

/-- `Income1099DIV` (`src/models/workflow_models.py`). -/
structure Income1099DIV where
  ordinary_dividends : ℚ := 0
  qualified_dividends : ℚ := 0
deriving DecidableEq, Repr

/-- `Income1099B` (`src/models/workflow_models.py`) — gains may be
negative for losses. -/
structure Income1099B where
  short_term_gains : ℚ := 0
  long_term_gains : ℚ := 0
deriving DecidableEq, Repr

/-- `ItemizedDeductions` (`src/models/workflow_models.py`). -/
structure ItemizedDeductions where
  medical : ℚ := 0
  state_and_local_taxes : ℚ := 0
  mortgage_interest : ℚ := 0
  charitable : ℚ := 0
  casualty : ℚ := 0
  other : ℚ := 0
deriving DecidableEq, Repr

/-- `TaxCredits` (`src/models/workflow_models.py`). -/
structure TaxCredits where
  num_qualifying_children : ℤ := 0
deriving DecidableEq, Repr

/-- `TaxReturnInput` (`src/models/workflow_models.py`) — master input
for the pipeline.  Pydantic field validation (`ge=0` bounds, qualified
≤ ordinary dividends) is modelled by the predicate `ValidCentsInput`. -/
structure TaxReturnInput where
  filing_status : FilingStatus
  is_over_65 : Bool := false
  is_blind : Bool := false
  w2s : List W2Income := []
  income_1099_nec : List Income1099NEC := []
  income_1099_int : List Income1099INT := []
  income_1099_div : List Income1099DIV := []
  income_1099_b : List Income1099B := []
  itemized_deductions : Option ItemizedDeductions := none
  force_standard_deduction : Bool := false
  hsa_deduction : ℚ := 0
  student_loan_interest : ℚ := 0
  educator_expenses : ℚ := 0
  ira_deduction : ℚ := 0
  self_employed_health_insurance : ℚ := 0
  credits : TaxCredits := {}
  estimated_payments : ℚ := 0
deriving DecidableEq, Repr

/-- `IncomeResult` (`src/models/workflow_models.py`). -/
structure IncomeResult where
  wages : ℚ
  self_employment_income : ℚ
  interest_income : ℚ
  ordinary_dividends : ℚ
  qualified_dividends : ℚ
  short_term_gains : ℚ
  long_term_gains : ℚ
  total_gross_income : ℚ
  net_investment_income : ℚ
deriving DecidableEq, Repr

/-- `DeductionResult` (`src/models/workflow_models.py`). -/
structure DeductionResult where
  standard_deduction_amount : ℚ
  itemized_total : ℚ
  used_standard : Bool
  deduction_amount : ℚ
  taxable_income : ℚ
  ordinary_taxable_income : ℚ
  preferential_qualified_dividends : ℚ
  preferential_long_term_gains : ℚ
deriving DecidableEq, Repr

/-- `TaxComputationResult` (`src/models/workflow_models.py`). -/
structure TaxComputationResult where
  ordinary_tax : ℚ
  qualified_dividend_tax : ℚ
  capital_gains_tax : ℚ
  niit : ℚ
  total_income_tax : ℚ
deriving DecidableEq, Repr

/-- `CreditsResult` (`src/models/workflow_models.py`). -/
structure CreditsResult where
  child_tax_credit : ℚ
  nonrefundable_ctc_applied : ℚ
  refundable_ctc_applied : ℚ
  total_credits_applied : ℚ
  tax_after_credits : ℚ
deriving DecidableEq, Repr

/-- `TaxSummary` (`src/models/workflow_models.py`) — the bottom line. -/
structure TaxSummary where
  filing_status : FilingStatus
  total_income : ℚ
  agi : ℚ
  deduction_amount : ℚ
  taxable_income : ℚ
  ordinary_tax : ℚ
  qualified_dividend_tax : ℚ
  capital_gains_tax : ℚ
  niit : ℚ
  total_income_tax_before_credits : ℚ
  total_credits : ℚ
  income_tax_after_credits : ℚ
  total_fica : ℚ
  total_tax : ℚ
  effective_rate : ℚ
  marginal_rate : ℚ
  total_withholding : ℚ
  estimated_payments : ℚ
  total_payments : ℚ
  refund_or_owed : ℚ
deriving DecidableEq, Repr

/-- `FullTaxCalculationResult` (`src/models/workflow_models.py`). -/
structure FullTaxCalculationResult where
  income : IncomeResult
  fica : FicaResult
  agi : AGIResult
  deductions : DeductionResult
  tax_computation : TaxComputationResult
  credits : CreditsResult
  summary : TaxSummary
deriving DecidableEq, Repr

/-- `run_income_workflow` (`src/workflows/income_workflow.py`):
aggregate all income sources. -/
def run_income_workflow (tax_return : TaxReturnInput) : IncomeResult :=
  let wages := (tax_return.w2s.map W2Income.wages).sum
  let se_income := (tax_return.income_1099_nec.map Income1099NEC.compensation).sum
  let interest := (tax_return.income_1099_int.map Income1099INT.interest).sum
  let ordinary_divs := (tax_return.income_1099_div.map Income1099DIV.ordinary_dividends).sum
  let qualified_divs := (tax_return.income_1099_div.map Income1099DIV.qualified_dividends).sum
  let st_gains := (tax_return.income_1099_b.map Income1099B.short_term_gains).sum
  let lt_gains := (tax_return.income_1099_b.map Income1099B.long_term_gains).sum
  let total_gross := wages + se_income + interest + ordinary_divs + st_gains + lt_gains
  let net_gains := max (st_gains + lt_gains) 0
  let nii := interest + ordinary_divs + net_gains
  ⟨quantize2 wages, quantize2 se_income, quantize2 interest,
   quantize2 ordinary_divs, quantize2 qualified_divs, quantize2 st_gains,
   quantize2 lt_gains, quantize2 total_gross, quantize2 nii⟩

/-- `run_fica_workflow` (`src/workflows/fica_workflow.py`). -/
def run_fica_workflow (income : IncomeResult) (filing_status : FilingStatus) :
    Except CalcError FicaResult :=
  calculate_fica income.wages income.self_employment_income filing_status

/-- `run_agi_workflow` (`src/workflows/agi_workflow.py`): builds
`GrossIncome`, injects the SE-tax deduction into the above-the-line
deductions, and delegates to `calculate_agi`. -/
def run_agi_workflow (tax_return : TaxReturnInput) (income : IncomeResult)
    (fica : FicaResult) : AGIResult :=
  let gross_income : GrossIncome :=
    ⟨income.wages, income.self_employment_income, income.interest_income,
     income.ordinary_dividends, income.qualified_dividends,
     income.short_term_gains, income.long_term_gains⟩
  let above_line : AboveLineDeductions :=
    { se_tax_deduction := fica.se_tax_deduction
      hsa_deduction := tax_return.hsa_deduction
      student_loan_interest := tax_return.student_loan_interest
      educator_expenses := tax_return.educator_expenses
      ira_deduction := tax_return.ira_deduction
      self_employed_health_insurance := tax_return.self_employed_health_insurance }
  calculate_agi gross_income above_line

def SALT_CAP_DEFAULT : ℚ := 10000

def SALT_CAP_MFS : ℚ := 5000

def MEDICAL_AGI_THRESHOLD : ℚ := 0.075

/-- `_compute_itemized_total` (`src/workflows/deduction_workflow.py`). -/
def compute_itemized_total (tax_return : TaxReturnInput) (agi : ℚ) : ℚ :=
  match tax_return.itemized_deductions with
  | none => 0
  | some item =>
    let medical_floor := quantize2 (agi * MEDICAL_AGI_THRESHOLD)
    let medical_deduction := max (item.medical - medical_floor) 0
    let salt_cap :=
      if tax_return.filing_status = .marriedFilingSeparately then SALT_CAP_MFS
      else SALT_CAP_DEFAULT
    let salt_deduction := min item.state_and_local_taxes salt_cap
    quantize2 (medical_deduction + salt_deduction + item.mortgage_interest
      + item.charitable + item.casualty + item.other)

/-- `run_deduction_workflow` (`src/workflows/deduction_workflow.py`):
standard vs. itemized selection, taxable income, and the
ordinary/preferential partition with proportional capping. -/
def run_deduction_workflow (tax_return : TaxReturnInput) (income : IncomeResult)
    (agi_result : AGIResult) : DeductionResult :=
  let std_result := lookup_standard_deduction tax_return.filing_status
    tax_return.is_blind tax_return.is_over_65
  let standard_amount := std_result.total_deduction
  let itemized_total := compute_itemized_total tax_return agi_result.agi
  let choice : Bool × ℚ :=
    if tax_return.force_standard_deduction then (true, standard_amount)
    else if tax_return.itemized_deductions.isSome ∧ standard_amount < itemized_total then
      (false, itemized_total)
    else (true, standard_amount)
  let used_standard := choice.1
  let deduction_amount := choice.2
  let taxable_income := max (agi_result.agi - deduction_amount) 0
  let pref_qualified_divs := income.qualified_dividends
  let pref_ltcg := max income.long_term_gains 0
  let total_preferential := pref_qualified_divs + pref_ltcg
  let capped : ℚ × ℚ :=
    if taxable_income < total_preferential ∧ 0 < total_preferential then
      let scale := taxable_income / total_preferential
      let pq := quantize2 (pref_qualified_divs * scale)
      (pq, quantize2 (taxable_income - pq))
    else (pref_qualified_divs, pref_ltcg)
  let ordinary_taxable := max (taxable_income - capped.1 - capped.2) 0
  ⟨quantize2 standard_amount, quantize2 itemized_total, used_standard,
   quantize2 deduction_amount, quantize2 taxable_income,
   quantize2 ordinary_taxable, quantize2 capped.1, quantize2 capped.2⟩

/-- `run_tax_computation_workflow` (`src/workflows/tax_computation_workflow.py`):
bracket tax on ordinary income, qualified-dividend tax stacked on it,
long-term-gains tax stacked above both, then NIIT. -/
def run_tax_computation_workflow (income : IncomeResult) (agi_result : AGIResult)
    (deductions : DeductionResult) (filing_status : FilingStatus) :
    Except CalcError TaxComputationResult := do
  let bracket_result ← calculate_bracket_tax deductions.ordinary_taxable_income
    filing_status
  let ordinary_tax := bracket_result.total_tax
  let div_result ← calculate_qualified_dividend_tax
    deductions.preferential_qualified_dividends deductions.ordinary_taxable_income
    filing_status
  let qualified_div_tax := div_result.tax
  let stacking_base := deductions.ordinary_taxable_income
    + deductions.preferential_qualified_dividends
  let cg_result ← calculate_capital_gains_tax 0
    deductions.preferential_long_term_gains stacking_base filing_status
  let capital_gains_tax := cg_result.long_term_tax
  let niit_result ← calculate_niit agi_result.agi income.net_investment_income
    filing_status
  let niit := niit_result.niit
  let total := quantize2 (ordinary_tax + qualified_div_tax + capital_gains_tax + niit)
  pure ⟨ordinary_tax, qualified_div_tax, capital_gains_tax, niit, total⟩

/-- `_calculate_child_tax_credit` (`src/workflows/credits_workflow.py`):
$2,000 per child, phased out by $50 per $1,000 of AGI over the
threshold; the per-$1,000 unit count is `to_integral_value(ROUND_HALF_UP)`
of `excess / 1000`. -/
def calculate_child_tax_credit (num_children : ℤ) (agi : ℚ)
    (filing_status : FilingStatus) : ℚ :=
if num_children ≤ 0 then 0
else
  let max_credit := CHILD_TAX_CREDIT_MAX * num_children
  let threshold := CHILD_TAX_CREDIT_PHASEOUT filing_status
  let excess := max (agi - threshold) 0
  let phaseout_units : ℤ := roundHalfUpZ (excess / 1000)
  let phaseout := quantize2 ((phaseout_units : ℚ) * 50)
  max (max_credit - phaseout) 0

/-- `run_credits_workflow` (`src/workflows/credits_workflow.py`):
non-refundable CTC against the liability, then the unused remainder —
capped at $1,700 per child — applied refundably. -/
def run_credits_workflow (tax_return : TaxReturnInput) (agi_result : AGIResult)
    (tax_computation : TaxComputationResult) : Except CalcError CreditsResult := do
  let total_tax := tax_computation.total_income_tax
  let ctc_total := calculate_child_tax_credit
    tax_return.credits.num_qualifying_children agi_result.agi
    tax_return.filing_status
  let nonrefundable_result ← apply_credit total_tax ctc_total false
  let nonrefundable_applied := nonrefundable_result.credit_applied
  let tax_after_nonrefundable := nonrefundable_result.tax_after
  let unused_ctc := ctc_total - nonrefundable_applied
  let refundable_cap := CHILD_TAX_CREDIT_REFUNDABLE
    * (tax_return.credits.num_qualifying_children : ℚ)
  let refundable_amount := min unused_ctc refundable_cap
  let refundable_result ← apply_credit tax_after_nonrefundable refundable_amount true
  let refundable_applied := refundable_result.credit_applied
  let total_credits := nonrefundable_applied + refundable_applied
  let tax_after := refundable_result.tax_after
  pure ⟨quantize2 ctc_total, quantize2 nonrefundable_applied,
    quantize2 refundable_applied, quantize2 total_credits, quantize2 tax_after⟩

/-- `run_summary_workflow` (`src/workflows/summary_workflow.py`):
assemble the bottom line; FICA is added to total tax but excluded from
the refund/owed offset. -/
def run_summary_workflow (tax_return : TaxReturnInput) (income : IncomeResult)
    (agi_result : AGIResult) (deductions : DeductionResult)
    (tax_computation : TaxComputationResult) (credits : CreditsResult)
    (fica : FicaResult) : Except CalcError TaxSummary := do
  let total_withholding := (tax_return.w2s.map W2Income.federal_withholding).sum
  let total_payments := total_withholding + tax_return.estimated_payments
  let income_tax_after_credits := credits.tax_after_credits
  let total_tax := income_tax_after_credits + fica.total_fica
  let refund_or_owed := income_tax_after_credits - total_payments
  let effective_rate :=
    if 0 < income.total_gross_income then
      quantize6 (total_tax / income.total_gross_income)
    else 0
  let bracket_result ← calculate_bracket_tax deductions.taxable_income
    tax_return.filing_status
  let marginal_rate := bracket_result.marginal_rate
  pure ⟨tax_return.filing_status,
    quantize2 income.total_gross_income,
    quantize2 agi_result.agi,
    quantize2 deductions.deduction_amount,
    quantize2 deductions.taxable_income,
    quantize2 tax_computation.ordinary_tax,
    quantize2 tax_computation.qualified_dividend_tax,
    quantize2 tax_computation.capital_gains_tax,
    quantize2 tax_computation.niit,
    quantize2 tax_computation.total_income_tax,
    quantize2 credits.total_credits_applied,
    quantize2 income_tax_after_credits,
    quantize2 fica.total_fica,
    quantize2 total_tax,
    effective_rate,
    marginal_rate,
    quantize2 total_withholding,
    quantize2 tax_return.estimated_payments,
    quantize2 total_payments,
    quantize2 refund_or_owed⟩

/-- Outcome of the external persistence collaborator
(`save_calculation`): either a saved record id or a raised exception. -/
inductive PersistOutcome where
| saved (record_id : ℕ)
| failed
deriving DecidableEq, Repr

/-- The `try: save_calculation(...) except Exception: log` block of
`calculate_full_tax`: the collaborator is invoked and its outcome —
success or failure — is discarded; the result is returned unchanged. -/
def attemptPersist (persist : TaxReturnInput → FullTaxCalculationResult → PersistOutcome)
    (tax_return : TaxReturnInput) (result : FullTaxCalculationResult) :
    FullTaxCalculationResult :=
  match persist tax_return result with
  | .saved _ => result
  | .failed => result

/-- `calculate_full_tax` (`src/workflows/orchestrator.py`):
Income → FICA → AGI → Deduction → Tax Computation → Credits → Summary,
then the fire-and-forget persistence call. -/
def calculate_full_tax
    (persist : TaxReturnInput → FullTaxCalculationResult → PersistOutcome)
    (tax_return : TaxReturnInput) : Except CalcError FullTaxCalculationResult := do
  let income := run_income_workflow tax_return
  let fica ← run_fica_workflow income tax_return.filing_status
  let agi := run_agi_workflow tax_return income fica
  let deductions := run_deduction_workflow tax_return income agi
  let tax_computation ← run_tax_computation_workflow income agi deductions
    tax_return.filing_status
  let credits ← run_credits_workflow tax_return agi tax_computation
  let summary ← run_summary_workflow tax_return income agi deductions
    tax_computation credits fica
  let result : FullTaxCalculationResult :=
    ⟨income, fica, agi, deductions, tax_computation, credits, summary⟩
  pure (attemptPersist persist tax_return result)

/-- The pydantic validation of `TaxReturnInput` (`ge=0` bounds,
qualified ≤ ordinary dividends per 1099-DIV record) together with the
spec's §3 data model: all monetary fields are exact two-decimal
fixed-point values, i.e. whole cents. -/
structure ValidCentsInput (tax_return : TaxReturnInput) : Prop where
  w2_wages_nonneg : ∀ w ∈ tax_return.w2s, 0 ≤ w.wages
  w2_wages_cents : ∀ w ∈ tax_return.w2s, Cents w.wages
  w2_withholding_nonneg : ∀ w ∈ tax_return.w2s, 0 ≤ w.federal_withholding
  w2_withholding_cents : ∀ w ∈ tax_return.w2s, Cents w.federal_withholding
  nec_nonneg : ∀ f ∈ tax_return.income_1099_nec, 0 ≤ f.compensation
  nec_cents : ∀ f ∈ tax_return.income_1099_nec, Cents f.compensation
  int_nonneg : ∀ f ∈ tax_return.income_1099_int, 0 ≤ f.interest
  int_cents : ∀ f ∈ tax_return.income_1099_int, Cents f.interest
  div_ordinary_nonneg : ∀ f ∈ tax_return.income_1099_div, 0 ≤ f.ordinary_dividends
  div_ordinary_cents : ∀ f ∈ tax_return.income_1099_div, Cents f.ordinary_dividends
  div_qualified_nonneg : ∀ f ∈ tax_return.income_1099_div, 0 ≤ f.qualified_dividends
  div_qualified_cents : ∀ f ∈ tax_return.income_1099_div, Cents f.qualified_dividends
  div_qualified_le : ∀ f ∈ tax_return.income_1099_div,
    f.qualified_dividends ≤ f.ordinary_dividends
  b_short_cents : ∀ f ∈ tax_return.income_1099_b, Cents f.short_term_gains
  b_long_cents : ∀ f ∈ tax_return.income_1099_b, Cents f.long_term_gains
  itemized_ok : ∀ item, tax_return.itemized_deductions = some item →
    (0 ≤ item.medical ∧ Cents item.medical)
    ∧ (0 ≤ item.state_and_local_taxes ∧ Cents item.state_and_local_taxes)
    ∧ (0 ≤ item.mortgage_interest ∧ Cents item.mortgage_interest)
    ∧ (0 ≤ item.charitable ∧ Cents item.charitable)
    ∧ (0 ≤ item.casualty ∧ Cents item.casualty)
    ∧ (0 ≤ item.other ∧ Cents item.other)
  hsa_nonneg : 0 ≤ tax_return.hsa_deduction
  hsa_cents : Cents tax_return.hsa_deduction
  student_loan_nonneg : 0 ≤ tax_return.student_loan_interest
  student_loan_cents : Cents tax_return.student_loan_interest
  educator_nonneg : 0 ≤ tax_return.educator_expenses
  educator_cents : Cents tax_return.educator_expenses
  ira_nonneg : 0 ≤ tax_return.ira_deduction
  ira_cents : Cents tax_return.ira_deduction
  se_health_nonneg : 0 ≤ tax_return.self_employed_health_insurance
  se_health_cents : Cents tax_return.self_employed_health_insurance
  children_nonneg : 0 ≤ tax_return.credits.num_qualifying_children
  estimated_nonneg : 0 ≤ tax_return.estimated_payments
  estimated_cents : Cents tax_return.estimated_payments

/-- Modelled from the spec (§4.7, §8): gross CTC is `$2,000 ×
numChildren` reduced by `$50 per $1,000 of the excess of AGI over the
threshold, with the excess rounded UP to the next $1,000 increment`
(a ceiling), floored at 0.  Stated for comparison with the source's
`calculate_child_tax_credit`. -/
def childTaxCreditSpecCeil (num_children : ℤ) (agi : ℚ)
    (filing_status : FilingStatus) : ℚ :=
if num_children ≤ 0 then 0
else
  let excess := max (agi - CHILD_TAX_CREDIT_PHASEOUT filing_status) 0
  let phaseout := (⌈excess / 1000⌉ : ℚ) * 50
  max (CHILD_TAX_CREDIT_MAX * num_children - phaseout) 0

/-- Portion of the stacked window `[o, o + a)` lying above the cutoff
`c` — the exact (pre-rounding) amount a preferential tier above `c`
receives.  Proof helper for the stacking analysis. -/
def tierPortionAbove (o a c : ℚ) : ℚ :=
max (o + a - c) 0 - max (o - c) 0

/-- A return whose only income record is a $1,000 short-term capital
loss on a 1099-B. -/
def lossOnlyInput : TaxReturnInput :=
  { filing_status := .single
    income_1099_b := [{ short_term_gains := -1000 }] }

/-- The `FicaResult` the calculator produces for no wages and $1,000 of
self-employment income (Single). -/
def ficaExample : FicaResult :=
  ⟨114.51, 26.78, 0, 141.29, 70.65, 141.29⟩

/-- A persistence collaborator that always fails (raises). -/
def persistAlwaysFails : TaxReturnInput → FullTaxCalculationResult → PersistOutcome :=
  fun _ _ => .failed

/-- Inputs exercising the proportional-capping branch of the deduction
workflow: $100 qualified dividends + $100 long-term gains against $100
of taxable income. -/
def dedTrExample : TaxReturnInput := { filing_status := .single }

def dedIncomeExample : IncomeResult := ⟨0, 0, 0, 100, 100, 0, 100, 200, 200⟩

def dedAgiExample : AGIResult := ⟨14700, 0, 14700⟩

/-- All-zero workflow records for exercising the summary workflow. -/
def incomeZero : IncomeResult := ⟨0, 0, 0, 0, 0, 0, 0, 0, 0⟩

def agiZero : AGIResult := ⟨0, 0, 0⟩

def dedZero : DeductionResult := ⟨0, 0, true, 0, 0, 0, 0, 0⟩

def taxCompZero : TaxComputationResult := ⟨0, 0, 0, 0, 0⟩

def creditsZero : CreditsResult := ⟨0, 0, 0, 0, 0⟩

def ficaZero : FicaResult := ⟨0, 0, 0, 0, 0, 0⟩

def summaryZero : TaxSummary :=
  ⟨.single, 0, 0, 0, 0, 0, 0, 0, 0, 0, 0, 0, 0, 0, 0, 0.10, 0, 0, 0, 0⟩

/-- Stage outputs of the pipeline on `lossOnlyInput`. -/
def incomeLoss : IncomeResult := ⟨0, 0, 0, 0, 0, -1000, 0, -1000, 0⟩

def agiLoss : AGIResult := ⟨-1000, 0, 0⟩

def dedLoss : DeductionResult := ⟨14600, 0, true, 14600, 0, 0, 0, 0⟩

def summaryLoss : TaxSummary :=
  ⟨.single, -1000, 0, 14600, 0, 0, 0, 0, 0, 0, 0, 0, 0, 0, 0, 0.10, 0, 0, 0, 0⟩

def lossResult : FullTaxCalculationResult :=
  ⟨incomeLoss, ficaZero, agiLoss, dedLoss, taxCompZero, creditsZero, summaryLoss⟩

/-! ### Rounding and fixed-point lemmas -/

theorem roundHalfUpZ_intCast (n : ℤ) : roundHalfUpZ (n : ℚ) = n := by
  unfold roundHalfUpZ
  by_cases h : (0 : ℚ) ≤ (n : ℚ)
  · rw [if_pos h, Int.floor_int_add]
    norm_num
  · rw [if_neg h]
    rw [show (-(n : ℚ) + 1/2 : ℚ) = ((-n : ℤ) : ℚ) + 1/2 by push_cast; ring]
    rw [Int.floor_int_add]
    norm_num

theorem roundHalfUpZ_neg (x : ℚ) : roundHalfUpZ (-x) = -roundHalfUpZ x := by
  unfold roundHalfUpZ
  by_cases hx : 0 ≤ x
  · by_cases hx' : (0 : ℚ) ≤ -x
    · have h0 : x = 0 := le_antisymm (by linarith) hx
      subst h0
      norm_num
    · rw [if_pos hx, if_neg hx']
      norm_num
  · have hx' : (0 : ℚ) ≤ -x := by linarith [not_le.mp hx]
    rw [if_pos hx', if_neg hx, neg_neg]

theorem roundHalfUpZ_cast_le (x : ℚ) : (roundHalfUpZ x : ℚ) ≤ x + 1/2 := by
  unfold roundHalfUpZ
  by_cases h : 0 ≤ x
  · rw [if_pos h]
    exact_mod_cast Int.floor_le (x + 1/2)
  · rw [if_neg h]
    have := Int.lt_floor_add_one (-x + 1/2)
    push_cast [this]
    linarith

theorem le_roundHalfUpZ_cast (x : ℚ) : x - 1/2 ≤ (roundHalfUpZ x : ℚ) := by
  unfold roundHalfUpZ
  by_cases h : 0 ≤ x
  · rw [if_pos h]
    have := Int.lt_floor_add_one (x + 1/2)
    linarith
  · rw [if_neg h]
    have := Int.floor_le (-x + 1/2)
    push_cast [this]
    linarith

theorem roundHalfUpZ_mono {x y : ℚ} (h : x ≤ y) : roundHalfUpZ x ≤ roundHalfUpZ y := by
  unfold roundHalfUpZ
  by_cases hx : 0 ≤ x
  · rw [if_pos hx, if_pos (le_trans hx h)]
    exact Int.floor_le_floor (by linarith)
  · rw [if_neg hx]
    by_cases hy : 0 ≤ y
    · rw [if_pos hy]
      have h1 : (0 : ℤ) ≤ ⌊y + 1/2⌋ := by
        apply Int.le_floor.mpr
        push_cast
        linarith
      have h2 : (0 : ℤ) ≤ ⌊-x + 1/2⌋ := by
        apply Int.le_floor.mpr
        push_cast
        linarith [not_le.mp hx]
      omega
    · rw [if_neg hy]
      have : ⌊-y + 1/2⌋ ≤ ⌊-x + 1/2⌋ := Int.floor_le_floor (by linarith)
      omega

theorem cents_quantize2 (x : ℚ) : Cents (quantize2 x) :=
  ⟨roundHalfUpZ (x * 100), rfl⟩

theorem Cents.zero : Cents 0 := ⟨0, by norm_num⟩

theorem Cents.intCast (n : ℤ) : Cents (n : ℚ) := ⟨n * 100, by push_cast; ring⟩

theorem Cents.add {x y : ℚ} (hx : Cents x) (hy : Cents y) : Cents (x + y) := by
  obtain ⟨m, rfl⟩ := hx
  obtain ⟨n, rfl⟩ := hy
  exact ⟨m + n, by push_cast; ring⟩

theorem Cents.neg {x : ℚ} (hx : Cents x) : Cents (-x) := by
  obtain ⟨m, rfl⟩ := hx
  exact ⟨-m, by push_cast; ring⟩

theorem Cents.sub {x y : ℚ} (hx : Cents x) (hy : Cents y) : Cents (x - y) := by
  rw [sub_eq_add_neg]
  exact hx.add hy.neg

theorem Cents.max {x y : ℚ} (hx : Cents x) (hy : Cents y) : Cents (max x y) := by
  rcases le_total x y with h | h
  · rwa [max_eq_right h]
  · rwa [max_eq_left h]

theorem Cents.min {x y : ℚ} (hx : Cents x) (hy : Cents y) : Cents (min x y) := by
  rcases le_total x y with h | h
  · rwa [min_eq_left h]
  · rwa [min_eq_right h]

theorem Cents.listSum {l : List ℚ} (h : ∀ x ∈ l, Cents x) : Cents l.sum := by
  induction l with
  | nil => simpa using Cents.zero
  | cons a t ih =>
    rw [List.sum_cons]
    exact (h a (List.mem_cons_self a t)).add
      (ih fun x hx => h x (List.mem_cons_of_mem a hx))

theorem quantize2_cents {x : ℚ} (h : Cents x) : quantize2 x = x := by
  obtain ⟨n, rfl⟩ := h
  unfold quantize2
  rw [show ((n : ℚ) / 100 * 100 : ℚ) = (n : ℚ) by field_simp]
  rw [roundHalfUpZ_intCast]

theorem quantize2_zero : quantize2 0 = 0 := quantize2_cents Cents.zero

theorem quantize2_neg (x : ℚ) : quantize2 (-x) = -quantize2 x := by
  unfold quantize2
  rw [show (-x * 100 : ℚ) = -(x * 100) by ring, roundHalfUpZ_neg]
  push_cast
  ring

theorem quantize2_mono {x y : ℚ} (h : x ≤ y) : quantize2 x ≤ quantize2 y := by
  unfold quantize2
  have := roundHalfUpZ_mono (show x * 100 ≤ y * 100 by linarith)
  have h2 : (roundHalfUpZ (x * 100) : ℚ) ≤ (roundHalfUpZ (y * 100) : ℚ) := by
    exact_mod_cast this
  linarith

theorem quantize2_nonneg {x : ℚ} (h : 0 ≤ x) : 0 ≤ quantize2 x := by
  have := quantize2_mono h
  rwa [quantize2_zero] at this

theorem quantize2_le (x : ℚ) : quantize2 x ≤ x + 1/200 := by
  unfold quantize2
  have := roundHalfUpZ_cast_le (x * 100)
  linarith

theorem le_quantize2 (x : ℚ) : x - 1/200 ≤ quantize2 x := by
  unfold quantize2
  have := le_roundHalfUpZ_cast (x * 100)
  linarith

/-! ### Bracket-walk lemmas -/

theorem bracketGo_total_eq_sum (ti : ℚ) (bs : List (Option ℚ × ℚ)) :
    ∀ pt marg, (bracketGo ti bs pt marg).2.1
      = ((bracketGo ti bs pt marg).1.map BracketDetail.tax_in_bracket).sum := by
  induction bs with
  | nil => intro pt marg; simp [bracketGo]
  | cons b rest ih =>
    intro pt marg
    obtain ⟨ub, rate⟩ := b
    cases ub with
    | none =>
      rw [bracketGo]
      by_cases h : ti ≤ pt
      · simp [h]
      · simp only [if_neg h]
        simp [ih]
    | some u =>
      rw [bracketGo]
      by_cases h : ti ≤ pt
      · simp [h]
      · simp only [if_neg h]
        simp [ih]

theorem bracketGo_total_cents (ti : ℚ) (bs : List (Option ℚ × ℚ)) :
    ∀ pt marg, Cents (bracketGo ti bs pt marg).2.1 := by
  induction bs with
  | nil => intro pt marg; simpa [bracketGo] using Cents.zero
  | cons b rest ih =>
    intro pt marg
    obtain ⟨ub, rate⟩ := b
    cases ub with
    | none =>
      rw [bracketGo]
      by_cases h : ti ≤ pt
      · simpa [h] using Cents.zero
      · simp only [if_neg h]
        exact (cents_quantize2 _).add (ih _ _)
    | some u =>
      rw [bracketGo]
      by_cases h : ti ≤ pt
      · simpa [h] using Cents.zero
      · simp only [if_neg h]
        exact (cents_quantize2 _).add (ih _ _)

theorem bracketGo_of_le {ti pt : ℚ} (h : ti ≤ pt) (b : Option ℚ × ℚ)
    (rest : List (Option ℚ × ℚ)) (marg : ℚ) :
    bracketGo ti (b :: rest) pt marg = ([], 0, marg) := by
  obtain ⟨ub, rate⟩ := b
  cases ub with
  | none => rw [bracketGo, if_pos h]
  | some u => rw [bracketGo, if_pos h]

/-! ### Preferential-stacking walk lemmas -/

theorem prefGo_fst_eq_sum (ts : List (Option ℚ × ℚ)) :
    ∀ r iso, (prefGo ts r iso).1
      = ((prefGo ts r iso).2.map PreferentialRateDetail.tax_in_bracket).sum := by
  induction ts with
  | nil => intro r iso; simp [prefGo]
  | cons b rest ih =>
    intro r iso
    obtain ⟨ub, rate⟩ := b
    cases ub with
    | none =>
      rw [prefGo]
      by_cases h : r ≤ 0
      · simp [h]
      · simp only [if_neg h]
        simp [h, ih]
    | some u =>
      rw [prefGo]
      by_cases h : r ≤ 0
      · simp [h]
      · simp only [if_neg h]
        by_cases h2 : max (u - iso) 0 ≤ 0
        · simp only [if_pos h2]
          exact ih _ _
        · simp only [if_neg h2]
          simp [ih]

theorem prefGo_fst_cents (ts : List (Option ℚ × ℚ)) :
    ∀ r iso, Cents (prefGo ts r iso).1 := by
  induction ts with
  | nil => intro r iso; simpa [prefGo] using Cents.zero
  | cons b rest ih =>
    intro r iso
    obtain ⟨ub, rate⟩ := b
    cases ub with
    | none =>
      rw [prefGo]
      by_cases h : r ≤ 0
      · simpa [h] using Cents.zero
      · simp only [if_neg h, if_neg (show ¬ r ≤ 0 from h)]
        exact (cents_quantize2 _).add (ih _ _)
    | some u =>
      rw [prefGo]
      by_cases h : r ≤ 0
      · simpa [h] using Cents.zero
      · simp only [if_neg h]
        by_cases h2 : max (u - iso) 0 ≤ 0
        · simp only [if_pos h2]
          exact ih _ _
        · simp only [if_neg h2]
          exact (cents_quantize2 _).add (ih _ _)

theorem prefGo_detail_tax (ts : List (Option ℚ × ℚ)) :
    ∀ r iso, ∀ d ∈ (prefGo ts r iso).2,
      d.tax_in_bracket = quantize2 (d.taxable_in_bracket * d.rate) := by
  induction ts with
  | nil => intro r iso d hd; simp [prefGo] at hd
  | cons b rest ih =>
    intro r iso d hd
    obtain ⟨ub, rate⟩ := b
    cases ub with
    | none =>
      rw [prefGo] at hd
      by_cases h : r ≤ 0
      · simp [h] at hd
      · simp only [if_neg h] at hd
        simp only [if_neg h, List.mem_cons] at hd
        rcases hd with rfl | hd
        · rfl
        · exact ih _ _ d hd
    | some u =>
      rw [prefGo] at hd
      by_cases h : r ≤ 0
      · simp [h] at hd
      · simp only [if_neg h] at hd
        by_cases h2 : max (u - iso) 0 ≤ 0
        · simp only [if_pos h2] at hd
          exact ih _ _ d hd
        · simp only [if_neg h2, List.mem_cons] at hd
          rcases hd with rfl | hd
          · rfl
          · exact ih _ _ d hd

theorem prefGo_detail_nonneg (ts : List (Option ℚ × ℚ)) :
    ∀ r iso, ∀ d ∈ (prefGo ts r iso).2, 0 ≤ d.taxable_in_bracket := by
  induction ts with
  | nil => intro r iso d hd; simp [prefGo] at hd
  | cons b rest ih =>
    intro r iso d hd
    obtain ⟨ub, rate⟩ := b
    cases ub with
    | none =>
      rw [prefGo] at hd
      by_cases h : r ≤ 0
      · simp [h] at hd
      · simp only [if_neg h, List.mem_cons] at hd
        rcases hd with rfl | hd
        · simpa using le_min (not_le.mp h).le (not_le.mp h).le
        · exact ih _ _ d hd
    | some u =>
      rw [prefGo] at hd
      by_cases h : r ≤ 0
      · simp [h] at hd
      · simp only [if_neg h] at hd
        by_cases h2 : max (u - iso) 0 ≤ 0
        · simp only [if_pos h2] at hd
          exact ih _ _ d hd
        · simp only [if_neg h2, List.mem_cons] at hd
          rcases hd with rfl | hd
          · simpa using le_min (not_le.mp h).le (not_le.mp h2).le
          · exact ih _ _ d hd

/-- Tier lists ending in an unbounded tier. -/
inductive LastNone : List (Option ℚ × ℚ) → Prop
| base (rate : ℚ) : LastNone [(none, rate)]
| cons (ub : Option ℚ) (rate : ℚ) {rest : List (Option ℚ × ℚ)} :
    LastNone rest → LastNone ((ub, rate) :: rest)

theorem LastNone.ne_nil {ts : List (Option ℚ × ℚ)} (h : LastNone ts) : ts ≠ [] := by
  cases h <;> simp

theorem prefGo_nonpos {ts : List (Option ℚ × ℚ)} (hne : ts ≠ []) {r : ℚ}
    (hr : r ≤ 0) (iso : ℚ) : prefGo ts r iso = (0, []) := by
  match ts with
  | [] => exact absurd rfl hne
  | (none, rate) :: rest => rw [prefGo, if_pos hr]
  | (some u, rate) :: rest => rw [prefGo, if_pos hr]

theorem prefGo_amount_sum {ts : List (Option ℚ × ℚ)} (h : LastNone ts) :
    ∀ r iso, 0 < r →
      ((prefGo ts r iso).2.map PreferentialRateDetail.taxable_in_bracket).sum = r := by
  induction h with
  | base rate =>
    intro r iso hr
    rw [prefGo, if_neg (not_le.mpr hr)]
    simp only [if_neg (not_le.mpr hr)]
    simp [prefGo, min_self]
  | cons ub rate hrest ih =>
    intro r iso hr
    cases ub with
    | none =>
      rw [prefGo, if_neg (not_le.mpr hr)]
      simp only [if_neg (not_le.mpr hr)]
      rw [min_self, prefGo_nonpos hrest.ne_nil (by simp) _]
      simp
    | some u =>
      rw [prefGo, if_neg (not_le.mpr hr)]
      by_cases h2 : max (u - iso) 0 ≤ 0
      · simp only [if_pos h2]
        exact ih r _ hr
      · simp only [if_neg h2]
        set x := min r (max (u - iso) 0) with hx
        have hxr : x ≤ r := min_le_left _ _
        rcases eq_or_lt_of_le hxr with hxeq | hxlt
        · rw [prefGo_nonpos hrest.ne_nil (by rw [hxeq]; simp) _]
          simp [hxeq]
        · have hpos : 0 < r - x := by linarith
          simp only [List.map_cons, List.sum_cons]
          rw [ih (r - x) _ hpos]
          ring

theorem lastNone_capital_gains (fs : FilingStatus) :
    LastNone (CAPITAL_GAINS_THRESHOLDS fs) := by
  cases fs <;> exact .cons _ _ (.cons _ _ (.base _))

/-- C7: for every `taxableIncome ≥ 0` and filing status, the bracket
engine's breakdown `tax_in_bracket` entries sum exactly to `total_tax`;
and at income 0 the breakdown is empty, the total tax is 0, the
effective rate is 0 and the marginal rate is the default 10%. -/
theorem bracket_tax_breakdown_sum_and_zero (ti : ℚ) (fs : FilingStatus)
    (r : BracketTaxResult) (h : calculate_bracket_tax ti fs = .ok r) :
    ((r.breakdown.map BracketDetail.tax_in_bracket).sum = r.total_tax)
    ∧ (ti = 0 → r.breakdown = [] ∧ r.total_tax = 0 ∧ r.effective_rate = 0
        ∧ r.marginal_rate = 0.10) := by
  unfold calculate_bracket_tax at h
  by_cases hneg : ti < 0
  · rw [if_pos hneg] at h
    exact absurd h (by simp)
  · rw [if_neg hneg] at h
    simp only [Except.ok.injEq] at h
    subst h
    constructor
    · show _ = quantize2 (bracketGo ti (FEDERAL_BRACKETS fs) 0 0.10).2.1
      rw [quantize2_cents (bracketGo_total_cents _ _ _ _)]
      exact (bracketGo_total_eq_sum ti _ 0 0.10).symm
    · intro h0
      subst h0
      have hz : bracketGo 0 (FEDERAL_BRACKETS fs) 0 0.10 = ([], 0, 0.10) := by
        cases fs <;> exact bracketGo_of_le le_rfl _ _ _
      refine ⟨?_, ?_, ?_, ?_⟩
      · show (bracketGo 0 (FEDERAL_BRACKETS fs) 0 0.10).1 = []
        rw [hz]
      · show quantize2 (bracketGo 0 (FEDERAL_BRACKETS fs) 0 0.10).2.1 = 0
        rw [hz]
        exact quantize2_zero
      · show (if (0:ℚ) < 0 then
            quantize6 ((bracketGo 0 (FEDERAL_BRACKETS fs) 0 0.10).2.1 / 0) else 0) = 0
        rw [if_neg (lt_irrefl (0 : ℚ))]
      · show (bracketGo 0 (FEDERAL_BRACKETS fs) 0 0.10).2.2 = 0.10
        rw [hz]

/-- Witness for C7 at `taxableIncome = 0`, Single. -/
theorem bracket_tax_breakdown_sum_and_zero_witness :
    ((( ⟨0, .single, 0, 0, 0.10, []⟩ : BracketTaxResult).breakdown.map
        BracketDetail.tax_in_bracket).sum
      = (⟨0, .single, 0, 0, 0.10, []⟩ : BracketTaxResult).total_tax)
    ∧ ((0:ℚ) = 0 → (⟨0, .single, 0, 0, 0.10, []⟩ : BracketTaxResult).breakdown = []
        ∧ (⟨0, .single, 0, 0, 0.10, []⟩ : BracketTaxResult).total_tax = 0
        ∧ (⟨0, .single, 0, 0, 0.10, []⟩ : BracketTaxResult).effective_rate = 0
        ∧ (⟨0, .single, 0, 0, 0.10, []⟩ : BracketTaxResult).marginal_rate = 0.10) :=
  bracket_tax_breakdown_sum_and_zero 0 .single ⟨0, .single, 0, 0, 0.10, []⟩ (by
    unfold calculate_bracket_tax
    rw [if_neg (by norm_num)]
    rw [show bracketGo 0 (FEDERAL_BRACKETS .single) 0 0.10 = ([], 0, 0.10) from
      bracketGo_of_le le_rfl _ _ _]
    simp [quantize2_zero])

/-- C4: for every `amount > 0`, `orderedIncome ≥ 0` and filing status,
the preferential breakdown partitions the amount exactly: per-tier
amounts are non-negative and sum to the amount, and the returned tax is
the sum over tiers of the tier amount times its rate, rounded half-up
to cents per tier. -/
theorem preferential_breakdown_partition (a o : ℚ) (fs : FilingStatus)
    (ha : 0 < a) (_ho : 0 ≤ o) :
    (∀ d ∈ (calculate_preferential_rate_tax a o fs).2, 0 ≤ d.taxable_in_bracket)
    ∧ ((calculate_preferential_rate_tax a o fs).2.map
        PreferentialRateDetail.taxable_in_bracket).sum = a
    ∧ (calculate_preferential_rate_tax a o fs).1
        = ((calculate_preferential_rate_tax a o fs).2.map
            (fun d => quantize2 (d.taxable_in_bracket * d.rate))).sum := by
  unfold calculate_preferential_rate_tax
  rw [if_neg (not_le.mpr ha)]
  refine ⟨?_, ?_, ?_⟩
  · intro d hd
    exact prefGo_detail_nonneg _ _ _ d hd
  · exact prefGo_amount_sum (lastNone_capital_gains fs) a o ha
  · show quantize2 _ = _
    rw [quantize2_cents (prefGo_fst_cents _ _ _)]
    rw [prefGo_fst_eq_sum]
    congr 1
    exact List.map_congr_left fun d hd => prefGo_detail_tax _ _ _ d hd

/-- Witness for C4: $1,000 stacked exactly on the Single 0% threshold
($47,025). -/
theorem preferential_breakdown_partition_witness :
    (∀ d ∈ (calculate_preferential_rate_tax 1000 47025 .single).2,
        0 ≤ d.taxable_in_bracket)
    ∧ ((calculate_preferential_rate_tax 1000 47025 .single).2.map
        PreferentialRateDetail.taxable_in_bracket).sum = 1000
    ∧ (calculate_preferential_rate_tax 1000 47025 .single).1
        = ((calculate_preferential_rate_tax 1000 47025 .single).2.map
            (fun d => quantize2 (d.taxable_in_bracket * d.rate))).sum :=
  preferential_breakdown_partition 1000 47025 .single (by norm_num) (by norm_num)

/-! ### FICA lemmas -/

theorem cents_sum_decomp (A B S1 S2 C : ℚ) (hA : Cents A) (hB : Cents B)
    (hS1 : Cents S1) (hS2 : Cents S2) (hC : Cents C) :
    quantize2 (A + B + (S1 + S2) + C) = quantize2 (A + S1) + quantize2 (B + S2) + C := by
  rw [quantize2_cents (((hA.add hB).add (hS1.add hS2)).add hC),
    quantize2_cents (hA.add hS1), quantize2_cents (hB.add hS2)]
  ring

theorem ficaCore_total (w2 se : ℚ) (fs : FilingStatus) :
    (ficaCore w2 se fs).total_fica
      = (ficaCore w2 se fs).ss_tax + (ficaCore w2 se fs).medicare_tax
        + (ficaCore w2 se fs).additional_medicare_tax := by
  unfold ficaCore
  by_cases hse : 0 < se
  · simp only [if_pos hse]
    exact cents_sum_decomp _ _ _ _ _ (cents_quantize2 _) (cents_quantize2 _)
      (cents_quantize2 _) (cents_quantize2 _) (cents_quantize2 _)
  · simp only [if_neg hse, add_zero]
    rw [quantize2_cents (((cents_quantize2 _).add (cents_quantize2 _)).add
      (cents_quantize2 _)),
      quantize2_cents (cents_quantize2 _), quantize2_cents (cents_quantize2 _)]

theorem calculate_fica_example_eval :
    calculate_fica 0 1000 .single = .ok ficaExample := by
  rw [calculate_fica]
  norm_num [ficaCore, ficaExample, quantize2, roundHalfUpZ,
    SOCIAL_SECURITY_WAGE_BASE, SOCIAL_SECURITY_RATE_EMPLOYEE,
    MEDICARE_RATE_EMPLOYEE, ADDITIONAL_MEDICARE_RATE,
    ADDITIONAL_MEDICARE_THRESHOLDS, SE_TAXABLE_FRACTION, SE_SS_RATE,
    SE_MEDICARE_RATE, SE_DEDUCTIBLE_FRACTION]

/-- C2 counterexample: for no wages and $1,000 of SE income (Single),
the result's own fields give `ss_tax + medicare_tax + se_tax +
additional_medicare_tax = 282.58` while `total_fica = 141.29`: the
`ss_tax`/`medicare_tax` fields already fold the SE portions in, so the
claimed four-field sum double-counts `se_tax`. -/
theorem fica_four_field_sum_counterexample :
    calculate_fica 0 1000 .single = .ok ficaExample
    ∧ ¬ (ficaExample.total_fica
        = ficaExample.ss_tax + ficaExample.medicare_tax + ficaExample.se_tax
          + ficaExample.additional_medicare_tax) := by
  refine ⟨calculate_fica_example_eval, ?_⟩
  norm_num [ficaExample]

/-- C2 amended: for every `w2Wages ≥ 0`, `seIncome ≥ 0` and filing
status, the returned `FicaResult` satisfies `total_fica = ss_tax +
medicare_tax + additional_medicare_tax` over its own fields — the
`ss_tax` and `medicare_tax` fields already include the SE SS/Medicare
portions whose sum is `se_tax`, and the SE-tax deduction is not
included in `total_fica`. -/
theorem fica_total_decomposition (w2 se : ℚ) (fs : FilingStatus) (r : FicaResult)
    (h : calculate_fica w2 se fs = .ok r) :
    r.total_fica = r.ss_tax + r.medicare_tax + r.additional_medicare_tax := by
  unfold calculate_fica at h
  by_cases h1 : w2 < 0
  · rw [if_pos h1] at h
    exact absurd h (by simp)
  · rw [if_neg h1] at h
    by_cases h2 : se < 0
    · rw [if_pos h2] at h
      exact absurd h (by simp)
    · rw [if_neg h2] at h
      simp only [Except.ok.injEq] at h
      subst h
      exact ficaCore_total w2 se fs

/-- Witness for C2's amended theorem at `(0, 1000, Single)`. -/
theorem fica_total_decomposition_witness :
    ficaExample.total_fica = ficaExample.ss_tax + ficaExample.medicare_tax
      + ficaExample.additional_medicare_tax :=
  fica_total_decomposition 0 1000 .single ficaExample calculate_fica_example_eval

/-- C1: at 1 qualifying child, AGI $200,400, Single (threshold
$200,000), the source's phaseout — `ROUND_HALF_UP` of `excess / 1000`,
here `0.4 → 0` units — leaves the credit at $2,000, while the claimed
round-UP (ceiling) rule, which the code's own comment asserts
(`ceil(excess / 1000) * 50`), gives 1 unit, a $50 phaseout and a
$1,950 credit. -/
theorem ctc_phaseout_rounding_divergence :
    calculate_child_tax_credit 1 200400 .single = 2000
    ∧ childTaxCreditSpecCeil 1 200400 .single = 1950 := by
  constructor
  · rw [calculate_child_tax_credit]
    norm_num [CHILD_TAX_CREDIT_MAX, CHILD_TAX_CREDIT_PHASEOUT,
      quantize2, roundHalfUpZ]
  · rw [childTaxCreditSpecCeil]
    have hc : ⌈(2:ℚ)/5⌉ = 1 := by
      rw [Int.ceil_eq_iff]
      norm_num
    norm_num [CHILD_TAX_CREDIT_MAX, CHILD_TAX_CREDIT_PHASEOUT, hc]

/-- C10: the aggregated `total_gross_income` is exactly the (rounded)
sum of W-2 wages + 1099-NEC compensation + interest + ordinary
dividends + short-term gains + long-term gains — qualified dividends
are not an additional term — and, because 1099-B gains may be
negative, it can itself be negative (witnessed by `lossOnlyInput`). -/
theorem income_aggregation_total (tr : TaxReturnInput) :
    (run_income_workflow tr).total_gross_income
      = quantize2 ((tr.w2s.map W2Income.wages).sum
        + (tr.income_1099_nec.map Income1099NEC.compensation).sum
        + (tr.income_1099_int.map Income1099INT.interest).sum
        + (tr.income_1099_div.map Income1099DIV.ordinary_dividends).sum
        + (tr.income_1099_b.map Income1099B.short_term_gains).sum
        + (tr.income_1099_b.map Income1099B.long_term_gains).sum)
    ∧ (run_income_workflow lossOnlyInput).total_gross_income < 0 := by
  constructor
  · rfl
  · rw [run_income_workflow]
    norm_num [lossOnlyInput, quantize2, roundHalfUpZ]

/-- C9: the result of the orchestrator does not depend on the
persistence collaborator — a calculation returns the same
`FullTaxCalculationResult` whether `save_calculation` succeeds or
raises. -/
theorem orchestrator_persistence_immaterial
    (p₁ p₂ : TaxReturnInput → FullTaxCalculationResult → PersistOutcome)
    (tr : TaxReturnInput) :
    calculate_full_tax p₁ tr = calculate_full_tax p₂ tr := by
  have hA : ∀ p t r, attemptPersist p t r = r := by
    intro p t r
    unfold attemptPersist
    cases p t r <;> rfl
  unfold calculate_full_tax
  simp only [hA]

/-! ### Deduction-partition lemmas -/

theorem cents_check (x : ℚ) (h : quantize2 x = x) : Cents x :=
  h ▸ cents_quantize2 x

theorem cents_standard_deduction (fs : FilingStatus) (b o : Bool) :
    Cents (lookup_standard_deduction fs b o).total_deduction := by
  cases fs <;> cases b <;> cases o <;>
    exact cents_check _ (by norm_num [lookup_standard_deduction, inSingleHoH,
      STANDARD_DEDUCTION, ADDITIONAL_DEDUCTION_SINGLE_HOH,
      ADDITIONAL_DEDUCTION_MARRIED, quantize2, roundHalfUpZ])

theorem cents_itemized_total (tr : TaxReturnInput) (agi : ℚ) :
    Cents (compute_itemized_total tr agi) := by
  unfold compute_itemized_total
  cases tr.itemized_deductions with
  | none => exact Cents.zero
  | some item => exact cents_quantize2 _

/-- C5: for every input, `IncomeResult` and `AGIResult` whose monetary
fields are whole cents, the `DeductionResult` satisfies
`taxable_income = max(AGI − deduction_amount, 0)` and the partition
`ordinary + preferential qualified dividends + preferential long-term
gains = taxable_income` exactly, with proportional capping applying
when the preferential candidates exceed taxable income. -/
theorem deduction_partition_invariant (tr : TaxReturnInput) (income : IncomeResult)
    (agi_result : AGIResult) (hq : Cents income.qualified_dividends)
    (hl : Cents income.long_term_gains) (hagi : Cents agi_result.agi) :
    (run_deduction_workflow tr income agi_result).taxable_income
      = max (agi_result.agi
          - (run_deduction_workflow tr income agi_result).deduction_amount) 0
    ∧ (run_deduction_workflow tr income agi_result).ordinary_taxable_income
      + (run_deduction_workflow tr income agi_result).preferential_qualified_dividends
      + (run_deduction_workflow tr income agi_result).preferential_long_term_gains
      = (run_deduction_workflow tr income agi_result).taxable_income := by
  unfold run_deduction_workflow
  simp only []
  set S := (lookup_standard_deduction tr.filing_status tr.is_blind
    tr.is_over_65).total_deduction with hS
  set I := compute_itemized_total tr agi_result.agi with hI
  have hScents : Cents S := cents_standard_deduction _ _ _
  have hIcents : Cents I := cents_itemized_total _ _
  set choice : Bool × ℚ :=
    (if tr.force_standard_deduction then (true, S)
     else if tr.itemized_deductions.isSome ∧ S < I then (false, I)
     else (true, S)) with hchoice
  have hD : Cents choice.2 := by
    rw [hchoice]
    split
    · exact hScents
    · split
      · exact hIcents
      · exact hScents
  set T := max (agi_result.agi - choice.2) 0 with hT
  have hTcents : Cents T := (hagi.sub hD).max Cents.zero
  have hTnn : 0 ≤ T := le_max_right _ _
  constructor
  · simp only [quantize2_cents hTcents, quantize2_cents hD]
  · set pq := income.qualified_dividends with hpq
    set pl := max income.long_term_gains 0 with hpl
    have hplcents : Cents pl := hl.max Cents.zero
    by_cases hcap : T < pq + pl ∧ 0 < pq + pl
    · simp only [if_pos hcap]
      set q := quantize2 (pq * (T / (pq + pl))) with hqdef
      have hqc : Cents q := cents_quantize2 _
      have h2 : quantize2 (T - q) = T - q := quantize2_cents (hTcents.sub hqc)
      simp only [h2]
      have hord : max (T - q - (T - q)) 0 = 0 := by
        rw [sub_self]
        exact max_self 0
      simp only [hord, quantize2_zero, quantize2_cents hqc,
        quantize2_cents (hTcents.sub hqc), quantize2_cents hTcents]
      ring
    · simp only [if_neg hcap]
      have hle : pq + pl ≤ T := by
        rcases not_and_or.mp hcap with h1 | h2
        · exact le_of_not_lt h1
        · have : pq + pl ≤ 0 := le_of_not_lt h2
          linarith
      have hord : max (T - pq - pl) 0 = T - pq - pl := by
        rw [max_eq_left]
        linarith
      simp only [hord, quantize2_cents ((hTcents.sub hq).sub hplcents),
        quantize2_cents hq, quantize2_cents hplcents, quantize2_cents hTcents]
      ring

/-- Witness for C5 with proportional capping active: taxable income
$100 against $200 of preferential candidates. -/
theorem deduction_partition_invariant_witness :
    (run_deduction_workflow dedTrExample dedIncomeExample dedAgiExample).taxable_income
      = max (dedAgiExample.agi
          - (run_deduction_workflow dedTrExample dedIncomeExample
              dedAgiExample).deduction_amount) 0
    ∧ (run_deduction_workflow dedTrExample dedIncomeExample
        dedAgiExample).ordinary_taxable_income
      + (run_deduction_workflow dedTrExample dedIncomeExample
          dedAgiExample).preferential_qualified_dividends
      + (run_deduction_workflow dedTrExample dedIncomeExample
          dedAgiExample).preferential_long_term_gains
      = (run_deduction_workflow dedTrExample dedIncomeExample
          dedAgiExample).taxable_income :=
  deduction_partition_invariant dedTrExample dedIncomeExample dedAgiExample
    ⟨10000, by norm_num [dedIncomeExample]⟩
    ⟨10000, by norm_num [dedIncomeExample]⟩
    ⟨1470000, by norm_num [dedAgiExample]⟩

/-! ### Summary lemmas -/

/-- C6: the summary satisfies `total_tax = income_tax_after_credits +
total_fica` and `refund_or_owed = income_tax_after_credits −
total_payments` over its own fields — FICA is added to the total tax
but never offset by withholding/estimated payments — whenever the
upstream amounts and payments are whole cents. -/
theorem summary_total_tax_and_refund (tr : TaxReturnInput) (income : IncomeResult)
    (agi_result : AGIResult) (deductions : DeductionResult)
    (tax_computation : TaxComputationResult) (credits : CreditsResult)
    (fica : FicaResult) (s : TaxSummary)
    (hca : Cents credits.tax_after_credits) (hfi : Cents fica.total_fica)
    (hwh : ∀ w ∈ tr.w2s, Cents w.federal_withholding)
    (hest : Cents tr.estimated_payments)
    (h : run_summary_workflow tr income agi_result deductions tax_computation
      credits fica = .ok s) :
    s.total_tax = s.income_tax_after_credits + s.total_fica
    ∧ s.refund_or_owed = s.income_tax_after_credits - s.total_payments := by
  unfold run_summary_workflow at h
  cases hb : calculate_bracket_tax deductions.taxable_income tr.filing_status with
  | error e =>
    rw [hb] at h
    simp [bind, Except.bind] at h
  | ok br =>
    rw [hb] at h
    simp only [bind, Except.bind, pure, Except.pure, Except.ok.injEq] at h
    subst h
    have hP : Cents ((tr.w2s.map W2Income.federal_withholding).sum
        + tr.estimated_payments) := by
      refine (Cents.listSum ?_).add hest
      intro x hx
      obtain ⟨w, hw, rfl⟩ := List.mem_map.mp hx
      exact hwh w hw
    refine ⟨?_, ?_⟩
    · show quantize2 (credits.tax_after_credits + fica.total_fica)
        = quantize2 credits.tax_after_credits + quantize2 fica.total_fica
      rw [quantize2_cents (hca.add hfi), quantize2_cents hca, quantize2_cents hfi]
    · show quantize2 (credits.tax_after_credits
          - ((tr.w2s.map W2Income.federal_withholding).sum + tr.estimated_payments))
        = quantize2 credits.tax_after_credits
          - quantize2 ((tr.w2s.map W2Income.federal_withholding).sum
            + tr.estimated_payments)
      rw [quantize2_cents (hca.sub hP), quantize2_cents hca, quantize2_cents hP]

theorem run_summary_zero_eval :
    run_summary_workflow { filing_status := .single } incomeZero agiZero dedZero
      taxCompZero creditsZero ficaZero = .ok summaryZero := by
  rw [run_summary_workflow]
  norm_num [bind, Except.bind, pure, Except.pure, calculate_bracket_tax,
    bracketGo, FEDERAL_BRACKETS, quantize2, quantize6, roundHalfUpZ,
    incomeZero, agiZero, dedZero, taxCompZero, creditsZero, ficaZero, summaryZero]

/-- Witness for C6 on the all-zero summary. -/
theorem summary_total_tax_and_refund_witness :
    summaryZero.total_tax
      = summaryZero.income_tax_after_credits + summaryZero.total_fica
    ∧ summaryZero.refund_or_owed
      = summaryZero.income_tax_after_credits - summaryZero.total_payments :=
  summary_total_tax_and_refund { filing_status := .single } incomeZero agiZero
    dedZero taxCompZero creditsZero ficaZero summaryZero
    ⟨0, by norm_num [creditsZero]⟩ ⟨0, by norm_num [ficaZero]⟩
    (fun w hw => absurd hw (by simp)) ⟨0, by norm_num⟩ run_summary_zero_eval


/-! ### Stacking closed form and monotonicity -/

theorem tpa_of_le {o c : ℚ} (a : ℚ) (ha : 0 ≤ a) (h : c ≤ o) :
    tierPortionAbove o a c = a := by
  unfold tierPortionAbove
  rw [max_eq_left (by linarith), max_eq_left (by linarith)]
  ring

theorem tpa_of_ge {o a c : ℚ} (ha : 0 ≤ a) (h : o + a ≤ c) :
    tierPortionAbove o a c = 0 := by
  unfold tierPortionAbove
  rw [max_eq_right (by linarith), max_eq_right (by linarith)]
  ring

theorem tpa_mid {o a c : ℚ} (h1 : o ≤ c) (h2 : c ≤ o + a) :
    tierPortionAbove o a c = o + a - c := by
  unfold tierPortionAbove
  rw [max_eq_left (by linarith), max_eq_right (by linarith)]
  ring

/-- Closed form of the three-tier stacking walk: the 15% tier receives
the part of the window `[o, o + a)` between the two thresholds, the 20%
tier the part above the second threshold, each rounded separately. -/
theorem prefGo_closed (t1 t2 r15 r20 a o : ℚ) (ha : 0 < a) (h12 : t1 ≤ t2) :
    (prefGo [(some t1, 0), (some t2, r15), (none, r20)] a o).1
      = quantize2 ((tierPortionAbove o a t1 - tierPortionAbove o a t2) * r15)
        + quantize2 (tierPortionAbove o a t2 * r20) := by
  have hnla : ¬ a ≤ 0 := not_le.mpr ha
  rcases le_or_lt t1 o with hB1 | hB2
  · -- tier 1 already filled by ordinary income
    have m1 : max (t1 - o) 0 = 0 := max_eq_right (by linarith)
    have c1 : max o t1 = o := max_eq_left hB1
    rcases le_or_lt t2 o with hA | hA
    · -- tier 2 also filled: everything lands at 20%
      have m2 : max (t2 - o) 0 = 0 := max_eq_right (by linarith)
      have c2 : max o t2 = o := max_eq_left hA
      simp only [prefGo, if_neg hnla, le_refl, if_true, ite_true, m1, c1, m2, c2, le_refl, if_pos,
        min_self, sub_self, if_true, mul_zero, zero_mul, quantize2_zero,
        add_zero, zero_add]
      rw [tpa_of_le a ha.le hB1, tpa_of_le a ha.le hA, sub_self, zero_mul,
        quantize2_zero]
      ring
    · have m2 : max (t2 - o) 0 = t2 - o := max_eq_left (by linarith)
      have g2 : ¬ t2 - o ≤ 0 := by intro hcon; linarith
      rcases le_or_lt (o + a) t2 with h3 | h3
      · -- window ends inside the 15% tier
        have mn : min a (t2 - o) = a := min_eq_left (by linarith)
        simp only [prefGo, if_neg hnla, le_refl, if_true, ite_true, m1, c1, m2, if_neg g2, le_refl,
          if_pos, mn, min_self, sub_self, if_true, mul_zero, zero_mul,
          quantize2_zero, add_zero, zero_add]
        rw [tpa_of_le a ha.le hB1, tpa_of_ge ha.le h3, sub_zero, zero_mul,
          quantize2_zero]
        ring
      · -- window crosses into the 20% tier
        have mn : min a (t2 - o) = t2 - o := min_eq_right (by linarith)
        have g3 : ¬ a - (t2 - o) ≤ 0 := by intro hcon; linarith
        simp only [prefGo, if_neg hnla, le_refl, if_true, ite_true, m1, c1, m2, if_neg g2, mn, if_neg g3,
          min_self, mul_zero, zero_mul, quantize2_zero, add_zero, zero_add]
        rw [tpa_of_le a ha.le hB1, tpa_mid (by linarith) (by linarith)]
        rw [show a - (o + a - t2) = t2 - o by ring,
          show a - (t2 - o) = o + a - t2 by ring]
  · -- window starts below tier 1's top
    have m1 : max (t1 - o) 0 = t1 - o := max_eq_left (by linarith)
    have g1 : ¬ t1 - o ≤ 0 := by intro hcon; linarith
    rcases le_or_lt (o + a) t1 with hC | hC
    · -- everything stays in the 0% tier
      have mn1 : min a (t1 - o) = a := min_eq_left (by linarith)
      simp only [prefGo, if_neg hnla, le_refl, if_true, ite_true, m1, if_neg g1, mn1, le_refl, sub_self,
        if_pos, if_true, mul_zero, zero_mul, quantize2_zero, add_zero,
        zero_add]
      rw [tpa_of_ge ha.le hC, tpa_of_ge ha.le (by linarith), sub_zero,
        zero_mul, quantize2_zero, zero_add, zero_mul, quantize2_zero]
    · have mn1 : min a (t1 - o) = t1 - o := min_eq_right (by linarith)
      have g1b : ¬ a - (t1 - o) ≤ 0 := by intro hcon; linarith
      have hcur : o + (t1 - o) = t1 := by ring
      rcases eq_or_lt_of_le h12 with hEq | hLt
      · -- the two thresholds coincide: skip the empty 15% tier
        subst hEq
        have m2 : max (t1 - t1) 0 = 0 := by rw [sub_self]; exact max_self 0
        simp only [prefGo, if_neg hnla, le_refl, if_true, ite_true, m1, if_neg g1, mn1, hcur, m2,
          le_refl, if_pos, max_self, if_neg g1b, min_self, sub_self,
          mul_zero, zero_mul, quantize2_zero, add_zero, zero_add, if_true]
        rw [tpa_mid (by linarith) (by linarith)]
        rw [show a - (t1 - o) = o + a - t1 by ring]
      · have m2 : max (t2 - t1) 0 = t2 - t1 := max_eq_left (by linarith)
        have g2 : ¬ t2 - t1 ≤ 0 := by intro hcon; linarith
        rcases le_or_lt (o + a) t2 with h3 | h3
        · -- window ends inside the 15% tier
          have mn2 : min (a - (t1 - o)) (t2 - t1) = a - (t1 - o) :=
            min_eq_left (by linarith)
          simp only [prefGo, if_neg hnla, le_refl, if_true, ite_true, m1, if_neg g1, mn1, hcur, m2,
            if_neg g2, mn2, if_neg g1b, le_refl, sub_self, if_pos, if_true,
            min_self, mul_zero, zero_mul, quantize2_zero, add_zero, zero_add]
          rw [tpa_mid (by linarith) (by linarith), tpa_of_ge ha.le h3,
            sub_zero]
          rw [show a - (t1 - o) = o + a - t1 by ring, zero_mul,
            quantize2_zero, add_zero]
        · -- window spans all three tiers
          have mn2 : min (a - (t1 - o)) (t2 - t1) = t2 - t1 :=
            min_eq_right (by linarith)
          have g3 : ¬ a - (t1 - o) - (t2 - t1) ≤ 0 := by intro hcon; linarith
          have hcur2 : t1 + (t2 - t1) = t2 := by ring
          simp only [prefGo, if_neg hnla, le_refl, if_true, ite_true, m1, if_neg g1, mn1, hcur, m2,
            if_neg g2, mn2, if_neg g3, if_neg g1b, hcur2, min_self, mul_zero,
            zero_mul, quantize2_zero, add_zero, zero_add]
          rw [tpa_mid (by linarith) (by linarith),
            tpa_mid (by linarith) (by linarith)]
          rw [show o + a - t1 - (o + a - t2) = t2 - t1 by ring,
            show a - (t1 - o) - (t2 - t1) = o + a - t2 by ring]

theorem tpa_eq_min (o a c : ℚ) (ha : 0 ≤ a) :
    tierPortionAbove o a c = min (max (o + a - c) 0) a := by
  unfold tierPortionAbove
  rcases le_total o c with h1 | h1
  · rw [show max (o - c) 0 = 0 from max_eq_right (by linarith)]
    rcases le_total (o + a) c with h2 | h2
    · rw [show max (o + a - c) 0 = 0 from max_eq_right (by linarith),
        show min (0:ℚ) a = 0 from min_eq_left ha]
      ring
    · rw [show max (o + a - c) 0 = o + a - c from max_eq_left (by linarith),
        show min (o + a - c) a = o + a - c from min_eq_left (by linarith)]
      ring
  · rw [show max (o - c) 0 = o - c from max_eq_left (by linarith),
      show max (o + a - c) 0 = o + a - c from max_eq_left (by linarith),
      show min (o + a - c) a = a from min_eq_right (by linarith)]
    ring

theorem tpa_mono (a c : ℚ) {o1 o2 : ℚ} (ha : 0 ≤ a) (h : o1 ≤ o2) :
    tierPortionAbove o1 a c ≤ tierPortionAbove o2 a c := by
  rw [tpa_eq_min o1 a c ha, tpa_eq_min o2 a c ha]
  exact min_le_min (max_le_max (by linarith) le_rfl) le_rfl

theorem stacking_mono_generic (t1 t2 a o1 o2 : ℚ) (ha : 0 < a)
    (h12t : t1 ≤ t2) (h12 : o1 ≤ o2) :
    (prefGo [(some t1, 0), (some t2, 0.15), (none, 0.20)] a o1).1
      ≤ (prefGo [(some t1, 0), (some t2, 0.15), (none, 0.20)] a o2).1 + 1/50 := by
  rw [prefGo_closed t1 t2 _ _ a o1 ha h12t, prefGo_closed t1 t2 _ _ a o2 ha h12t]
  have hA1 := tpa_mono a t1 ha.le h12
  have hA2 := tpa_mono a t2 ha.le h12
  have b1 := quantize2_le
    ((tierPortionAbove o1 a t1 - tierPortionAbove o1 a t2) * 0.15)
  have b2 := quantize2_le (tierPortionAbove o1 a t2 * 0.20)
  have b3 := le_quantize2
    ((tierPortionAbove o2 a t1 - tierPortionAbove o2 a t2) * 0.15)
  have b4 := le_quantize2 (tierPortionAbove o2 a t2 * 0.20)
  have e15 : (0.15 : ℚ) = 3/20 := by norm_num
  have e20 : (0.20 : ℚ) = 1/5 := by norm_num
  simp only [e15, e20] at b1 b2 b3 b4 ⊢
  linarith

/-- C8 counterexample: Single filer, $10,000 stacked over $518,899.96
gives $2,000.00 of preferential tax, but over the higher base
$518,899.97 only $1,999.99 — per-tier round-half-up moves a half-cent
boundary in the 15% tier without moving one in the 20% tier, so the
tax is not monotone in the stacking base. -/
theorem preferential_stacking_monotone_counterexample :
    (calculate_preferential_rate_tax 10000 518899.96 .single).1 = 2000
    ∧ (calculate_preferential_rate_tax 10000 518899.97 .single).1 = 1999.99
    ∧ ¬ ((calculate_preferential_rate_tax 10000 518899.96 .single).1
        ≤ (calculate_preferential_rate_tax 10000 518899.97 .single).1) := by
  have h1 : (calculate_preferential_rate_tax 10000 518899.96 .single).1 = 2000 := by
    rw [calculate_preferential_rate_tax]
    norm_num [CAPITAL_GAINS_THRESHOLDS, prefGo, quantize2, roundHalfUpZ]
  have h2 : (calculate_preferential_rate_tax 10000 518899.97 .single).1 = 1999.99 := by
    rw [calculate_preferential_rate_tax]
    norm_num [CAPITAL_GAINS_THRESHOLDS, prefGo, quantize2, roundHalfUpZ]
  refine ⟨h1, h2, ?_⟩
  rw [h1, h2]
  norm_num

/-- C8 amended: for a fixed amount > 0 and filing status, the
preferential tax stacked over `o1` never exceeds the tax stacked over
a higher base `o2` by more than $0.02 (one cent of round-half-up slack
for each of the two nonzero-rate tiers); the exact pre-rounding
stacked tax is monotone in the base. -/
theorem preferential_stacking_monotone_upto_rounding (a o1 o2 : ℚ)
    (fs : FilingStatus) (ha : 0 < a) (_ho : 0 ≤ o1) (h12 : o1 ≤ o2) :
    (calculate_preferential_rate_tax a o1 fs).1
      ≤ (calculate_preferential_rate_tax a o2 fs).1 + 1/50 := by
  unfold calculate_preferential_rate_tax
  rw [if_neg (not_le.mpr ha), if_neg (not_le.mpr ha)]
  show quantize2 (prefGo (CAPITAL_GAINS_THRESHOLDS fs) a o1).1
    ≤ quantize2 (prefGo (CAPITAL_GAINS_THRESHOLDS fs) a o2).1 + 1/50
  rw [quantize2_cents (prefGo_fst_cents _ _ _),
    quantize2_cents (prefGo_fst_cents _ _ _)]
  cases fs <;> simp only [CAPITAL_GAINS_THRESHOLDS] <;>
    exact stacking_mono_generic _ _ a o1 o2 ha (by norm_num) h12

/-- Witness for C8's amended bound at the counterexample's inputs. -/
theorem preferential_stacking_monotone_upto_rounding_witness :
    (calculate_preferential_rate_tax 10000 518899.96 .single).1
      ≤ (calculate_preferential_rate_tax 10000 518899.97 .single).1 + 1/50 :=
  preferential_stacking_monotone_upto_rounding 10000 518899.96 518899.97 .single
    (by norm_num) (by norm_num) (by norm_num)

/-! ### Pipeline (orchestrator) lemmas -/

theorem cents_sum_map {α : Type} (l : List α) (f : α → ℚ)
    (h : ∀ x ∈ l, Cents (f x)) : Cents ((l.map f).sum) := by
  refine Cents.listSum ?_
  intro x hx
  obtain ⟨w, hw, rfl⟩ := List.mem_map.mp hx
  exact h w hw

theorem sum_map_nonneg {α : Type} (l : List α) (f : α → ℚ)
    (h : ∀ x ∈ l, 0 ≤ f x) : 0 ≤ (l.map f).sum := by
  refine List.sum_nonneg ?_
  intro x hx
  obtain ⟨w, hw, rfl⟩ := List.mem_map.mp hx
  exact h w hw

theorem fica_ok {w2 se : ℚ} (fs : FilingStatus) (h1 : 0 ≤ w2) (h2 : 0 ≤ se) :
    calculate_fica w2 se fs = .ok (ficaCore w2 se fs) := by
  unfold calculate_fica
  rw [if_neg (not_lt.mpr h1), if_neg (not_lt.mpr h2)]

theorem ficaCore_se_ded_cents (w2 se : ℚ) (fs : FilingStatus) :
    Cents (ficaCore w2 se fs).se_tax_deduction :=
  cents_quantize2 _

theorem ficaCore_se_ded_nonneg (w2 se : ℚ) (fs : FilingStatus) :
    0 ≤ (ficaCore w2 se fs).se_tax_deduction := by
  unfold ficaCore
  by_cases hse : 0 < se
  · simp only [if_pos hse]
    refine quantize2_nonneg (mul_nonneg (add_nonneg ?_ ?_)
      (by norm_num [SE_DEDUCTIBLE_FRACTION]))
    · refine quantize2_nonneg (mul_nonneg ?_ (by norm_num [SE_SS_RATE]))
      exact le_min
        (quantize2_nonneg (mul_nonneg hse.le (by norm_num [SE_TAXABLE_FRACTION])))
        (le_max_right _ _)
    · refine quantize2_nonneg (mul_nonneg ?_ (by norm_num [SE_MEDICARE_RATE]))
      exact quantize2_nonneg (mul_nonneg hse.le (by norm_num [SE_TAXABLE_FRACTION]))
  · simp only [if_neg hse]
    exact quantize2_nonneg (by norm_num)

theorem std_nonneg (fs : FilingStatus) (b o : Bool) :
    0 ≤ (lookup_standard_deduction fs b o).total_deduction := by
  cases fs <;> cases b <;> cases o <;>
    norm_num [lookup_standard_deduction, inSingleHoH, STANDARD_DEDUCTION,
      ADDITIONAL_DEDUCTION_SINGLE_HOH, ADDITIONAL_DEDUCTION_MARRIED]

theorem attemptPersist_id
    (persist : TaxReturnInput → FullTaxCalculationResult → PersistOutcome)
    (tr : TaxReturnInput) (r : FullTaxCalculationResult) :
    attemptPersist persist tr r = r := by
  unfold attemptPersist
  cases persist tr r <;> rfl

theorem run_income_fields_eq (tr : TaxReturnInput) :
    run_income_workflow tr
      = ⟨quantize2 ((tr.w2s.map W2Income.wages).sum),
         quantize2 ((tr.income_1099_nec.map Income1099NEC.compensation).sum),
         quantize2 ((tr.income_1099_int.map Income1099INT.interest).sum),
         quantize2 ((tr.income_1099_div.map Income1099DIV.ordinary_dividends).sum),
         quantize2 ((tr.income_1099_div.map Income1099DIV.qualified_dividends).sum),
         quantize2 ((tr.income_1099_b.map Income1099B.short_term_gains).sum),
         quantize2 ((tr.income_1099_b.map Income1099B.long_term_gains).sum),
         quantize2 ((tr.w2s.map W2Income.wages).sum
           + (tr.income_1099_nec.map Income1099NEC.compensation).sum
           + (tr.income_1099_int.map Income1099INT.interest).sum
           + (tr.income_1099_div.map Income1099DIV.ordinary_dividends).sum
           + (tr.income_1099_b.map Income1099B.short_term_gains).sum
           + (tr.income_1099_b.map Income1099B.long_term_gains).sum),
         quantize2 ((tr.income_1099_int.map Income1099INT.interest).sum
           + (tr.income_1099_div.map Income1099DIV.ordinary_dividends).sum
           + max ((tr.income_1099_b.map Income1099B.short_term_gains).sum
             + (tr.income_1099_b.map Income1099B.long_term_gains).sum) 0)⟩ :=
  rfl

theorem run_agi_agi_eq (tr : TaxReturnInput) (inc : IncomeResult) (fica : FicaResult) :
    (run_agi_workflow tr inc fica).agi
      = quantize2 (max ((inc.wages + inc.self_employment_income
          + inc.interest_income + inc.ordinary_dividends + inc.short_term_gains
          + inc.long_term_gains)
        - (tr.educator_expenses + tr.student_loan_interest + tr.hsa_deduction
          + tr.ira_deduction + fica.se_tax_deduction
          + tr.self_employed_health_insurance + 0 + 0)) 0) :=
  rfl

theorem except_bind_ok {ε α β : Type} (a : α) (f : α → Except ε β) :
    ((Except.ok a : Except ε α) >>= f) = f a := rfl

theorem except_bind_err {ε α β : Type} (e : ε) (f : α → Except ε β) :
    ((Except.error e : Except ε α) >>= f) = Except.error e := rfl

theorem ded_taxable_spec (tr : TaxReturnInput) (inc : IncomeResult) (agi : AGIResult) :
    ∃ D, 0 ≤ D ∧ (run_deduction_workflow tr inc agi).taxable_income
      = quantize2 (max (agi.agi - D) 0) := by
  refine ⟨(if tr.force_standard_deduction then
      ((true : Bool), (lookup_standard_deduction tr.filing_status tr.is_blind
        tr.is_over_65).total_deduction)
    else if tr.itemized_deductions.isSome ∧ (lookup_standard_deduction
        tr.filing_status tr.is_blind tr.is_over_65).total_deduction
        < compute_itemized_total tr agi.agi then
      ((false : Bool), compute_itemized_total tr agi.agi)
    else ((true : Bool), (lookup_standard_deduction tr.filing_status tr.is_blind
      tr.is_over_65).total_deduction)).2, ?_, rfl⟩
  split_ifs with h1 h2
  · exact std_nonneg _ _ _
  · exact le_trans (std_nonneg tr.filing_status tr.is_blind tr.is_over_65) h2.2.le
  · exact std_nonneg _ _ _

/-- C3 amended: for every valid whole-cent `TaxReturnInput`, the
summary produced by the full pipeline satisfies
`agi ≥ taxable_income ≥ 0`, and `total_income ≥ agi` whenever the
aggregated total income is non-negative; when 1099-B capital losses
drive the aggregated gross income negative, `total_income < agi = 0`
instead (see the counterexample). -/
theorem summary_income_chain_amended (tr : TaxReturnInput)
    (persist : TaxReturnInput → FullTaxCalculationResult → PersistOutcome)
    (res : FullTaxCalculationResult) (hv : ValidCentsInput tr)
    (h : calculate_full_tax persist tr = .ok res) :
    res.summary.taxable_income ≤ res.summary.agi
    ∧ 0 ≤ res.summary.taxable_income
    ∧ (0 ≤ res.summary.total_income → res.summary.agi ≤ res.summary.total_income) := by
  have hWc : Cents ((tr.w2s.map W2Income.wages).sum) :=
    cents_sum_map _ _ hv.w2_wages_cents
  have hWn : 0 ≤ (tr.w2s.map W2Income.wages).sum :=
    sum_map_nonneg _ _ hv.w2_wages_nonneg
  have hSc : Cents ((tr.income_1099_nec.map Income1099NEC.compensation).sum) :=
    cents_sum_map _ _ hv.nec_cents
  have hSn : 0 ≤ (tr.income_1099_nec.map Income1099NEC.compensation).sum :=
    sum_map_nonneg _ _ hv.nec_nonneg
  have hIc : Cents ((tr.income_1099_int.map Income1099INT.interest).sum) :=
    cents_sum_map _ _ hv.int_cents
  have hDc : Cents ((tr.income_1099_div.map Income1099DIV.ordinary_dividends).sum) :=
    cents_sum_map _ _ hv.div_ordinary_cents
  have hSTc : Cents ((tr.income_1099_b.map Income1099B.short_term_gains).sum) :=
    cents_sum_map _ _ hv.b_short_cents
  have hLTc : Cents ((tr.income_1099_b.map Income1099B.long_term_gains).sum) :=
    cents_sum_map _ _ hv.b_long_cents
  have hTc : Cents ((tr.w2s.map W2Income.wages).sum
      + (tr.income_1099_nec.map Income1099NEC.compensation).sum
      + (tr.income_1099_int.map Income1099INT.interest).sum
      + (tr.income_1099_div.map Income1099DIV.ordinary_dividends).sum
      + (tr.income_1099_b.map Income1099B.short_term_gains).sum
      + (tr.income_1099_b.map Income1099B.long_term_gains).sum) :=
    ((((hWc.add hSc).add hIc).add hDc).add hSTc).add hLTc
  unfold calculate_full_tax at h
  have hwn : 0 ≤ (run_income_workflow tr).wages := quantize2_nonneg hWn
  have hsn : 0 ≤ (run_income_workflow tr).self_employment_income :=
    quantize2_nonneg hSn
  simp only [run_fica_workflow, fica_ok tr.filing_status hwn hsn,
    except_bind_ok] at h
  set inc := run_income_workflow tr with hinc
  set F := ficaCore inc.wages inc.self_employment_income tr.filing_status with hF
  set AG := run_agi_workflow tr inc F with hAG
  set DED := run_deduction_workflow tr inc AG with hDED
  cases htc : run_tax_computation_workflow inc AG DED tr.filing_status with
  | error e =>
    rw [htc, except_bind_err] at h
    exact absurd h (by simp)
  | ok tc =>
    rw [htc] at h
    simp only [except_bind_ok] at h
    cases hcr : run_credits_workflow tr AG tc with
    | error e =>
      rw [hcr, except_bind_err] at h
      exact absurd h (by simp)
    | ok cr =>
      rw [hcr] at h
      simp only [except_bind_ok] at h
      cases hs : run_summary_workflow tr inc AG DED tc cr F with
      | error e =>
        rw [hs, except_bind_err] at h
        exact absurd h (by simp)
      | ok s =>
        rw [hs] at h
        simp only [except_bind_ok, attemptPersist_id, pure, Except.pure,
          Except.ok.injEq] at h
        subst h
        unfold run_summary_workflow at hs
        cases hb : calculate_bracket_tax DED.taxable_income tr.filing_status with
        | error e =>
          rw [hb, except_bind_err] at hs
          exact absurd hs (by simp)
        | ok br =>
          rw [hb] at hs
          simp only [except_bind_ok, pure, Except.pure, Except.ok.injEq] at hs
          subst hs
          -- facts about AGI
          have hAGnn : 0 ≤ AG.agi := by
            rw [hAG, run_agi_agi_eq]
            exact quantize2_nonneg (le_max_right _ _)
          have hAGc : Cents AG.agi := by
            rw [hAG, run_agi_agi_eq]
            exact cents_quantize2 _
          obtain ⟨D, hD0, hDeq⟩ := ded_taxable_spec tr inc AG
          rw [← hDED] at hDeq
          have hDEDc : Cents DED.taxable_income := by
            rw [hDeq]
            exact cents_quantize2 _
          have hDEDnn : 0 ≤ DED.taxable_income := by
            rw [hDeq]
            exact quantize2_nonneg (le_max_right _ _)
          refine ⟨?_, ?_, ?_⟩
          · show quantize2 DED.taxable_income ≤ quantize2 AG.agi
            rw [quantize2_cents hDEDc, quantize2_cents hAGc, hDeq]
            have hle : max (AG.agi - D) 0 ≤ AG.agi := max_le (by linarith) hAGnn
            calc quantize2 (max (AG.agi - D) 0)
                ≤ quantize2 AG.agi := quantize2_mono hle
              _ = AG.agi := quantize2_cents hAGc
          · show 0 ≤ quantize2 DED.taxable_income
            exact quantize2_nonneg hDEDnn
          · intro hti
            show quantize2 AG.agi ≤ quantize2 inc.total_gross_income
            have htgc : Cents inc.total_gross_income := by
              rw [hinc]
              exact cents_quantize2 _
            have htg : inc.total_gross_income
                = (tr.w2s.map W2Income.wages).sum
                  + (tr.income_1099_nec.map Income1099NEC.compensation).sum
                  + (tr.income_1099_int.map Income1099INT.interest).sum
                  + (tr.income_1099_div.map Income1099DIV.ordinary_dividends).sum
                  + (tr.income_1099_b.map Income1099B.short_term_gains).sum
                  + (tr.income_1099_b.map Income1099B.long_term_gains).sum := by
              rw [hinc]
              exact quantize2_cents hTc
            replace hti : (0:ℚ) ≤ quantize2 inc.total_gross_income := hti
            rw [quantize2_cents htgc] at hti ⊢
            rw [htg] at hti ⊢
            have hfw : inc.wages = (tr.w2s.map W2Income.wages).sum := by
              rw [hinc]
              exact quantize2_cents hWc
            have hfs : inc.self_employment_income
                = (tr.income_1099_nec.map Income1099NEC.compensation).sum := by
              rw [hinc]
              exact quantize2_cents hSc
            have hfi : inc.interest_income
                = (tr.income_1099_int.map Income1099INT.interest).sum := by
              rw [hinc]
              exact quantize2_cents hIc
            have hfd : inc.ordinary_dividends
                = (tr.income_1099_div.map Income1099DIV.ordinary_dividends).sum := by
              rw [hinc]
              exact quantize2_cents hDc
            have hfst : inc.short_term_gains
                = (tr.income_1099_b.map Income1099B.short_term_gains).sum := by
              rw [hinc]
              exact quantize2_cents hSTc
            have hflt : inc.long_term_gains
                = (tr.income_1099_b.map Income1099B.long_term_gains).sum := by
              rw [hinc]
              exact quantize2_cents hLTc
            rw [hAG, run_agi_agi_eq, quantize2_cents (cents_quantize2 _),
              hfw, hfs, hfi, hfd, hfst, hflt]
            have hdn : 0 ≤ tr.educator_expenses + tr.student_loan_interest
                + tr.hsa_deduction + tr.ira_deduction + F.se_tax_deduction
                + tr.self_employed_health_insurance + 0 + 0 := by
              have hsed : 0 ≤ F.se_tax_deduction := by
                rw [hF]
                exact ficaCore_se_ded_nonneg _ _ _
              have := hv.educator_nonneg
              have := hv.student_loan_nonneg
              have := hv.hsa_nonneg
              have := hv.ira_nonneg
              have := hv.se_health_nonneg
              linarith
            have hdc : Cents (tr.educator_expenses + tr.student_loan_interest
                + tr.hsa_deduction + tr.ira_deduction + F.se_tax_deduction
                + tr.self_employed_health_insurance + 0 + 0) := by
              have hsedc : Cents F.se_tax_deduction := by
                rw [hF]
                exact ficaCore_se_ded_cents _ _ _
              exact ((((((hv.educator_cents.add hv.student_loan_cents).add
                hv.hsa_cents).add hv.ira_cents).add hsedc).add
                hv.se_health_cents).add Cents.zero).add Cents.zero
            rw [quantize2_cents ((hTc.sub hdc).max Cents.zero)]
            exact max_le (by linarith) hti

theorem income_loss_eval : run_income_workflow lossOnlyInput = incomeLoss := by
  rw [run_income_workflow]
  norm_num [lossOnlyInput, incomeLoss, quantize2, roundHalfUpZ]

theorem fica_loss_eval : run_fica_workflow incomeLoss .single = .ok ficaZero := by
  rw [run_fica_workflow, calculate_fica]
  norm_num [incomeLoss, ficaZero, ficaCore, quantize2, roundHalfUpZ,
    SOCIAL_SECURITY_WAGE_BASE, SOCIAL_SECURITY_RATE_EMPLOYEE,
    MEDICARE_RATE_EMPLOYEE, ADDITIONAL_MEDICARE_RATE,
    ADDITIONAL_MEDICARE_THRESHOLDS, SE_TAXABLE_FRACTION, SE_SS_RATE,
    SE_MEDICARE_RATE, SE_DEDUCTIBLE_FRACTION]

theorem agi_loss_eval : run_agi_workflow lossOnlyInput incomeLoss ficaZero = agiLoss := by
  rw [run_agi_workflow]
  norm_num [calculate_agi, lossOnlyInput, incomeLoss, ficaZero, agiLoss,
    quantize2, roundHalfUpZ]

theorem ded_loss_eval :
    run_deduction_workflow lossOnlyInput incomeLoss agiLoss = dedLoss := by
  rw [run_deduction_workflow]
  norm_num [lookup_standard_deduction, inSingleHoH, STANDARD_DEDUCTION,
    ADDITIONAL_DEDUCTION_SINGLE_HOH, ADDITIONAL_DEDUCTION_MARRIED,
    compute_itemized_total, lossOnlyInput, incomeLoss, agiLoss, dedLoss,
    quantize2, roundHalfUpZ]

theorem tc_loss_eval :
    run_tax_computation_workflow incomeLoss agiLoss dedLoss .single
      = .ok taxCompZero := by
  rw [run_tax_computation_workflow]
  norm_num [bind, Except.bind, pure, Except.pure, calculate_bracket_tax,
    bracketGo, FEDERAL_BRACKETS, calculate_qualified_dividend_tax,
    calculate_capital_gains_tax, calculate_preferential_rate_tax, prefGo,
    CAPITAL_GAINS_THRESHOLDS, calculate_niit, NIIT_RATE, NIIT_THRESHOLDS,
    incomeLoss, agiLoss, dedLoss, taxCompZero, quantize2, quantize6,
    roundHalfUpZ]

theorem credits_loss_eval :
    run_credits_workflow lossOnlyInput agiLoss taxCompZero = .ok creditsZero := by
  rw [run_credits_workflow]
  norm_num [bind, Except.bind, pure, Except.pure, calculate_child_tax_credit,
    apply_credit, CHILD_TAX_CREDIT_MAX, CHILD_TAX_CREDIT_REFUNDABLE,
    CHILD_TAX_CREDIT_PHASEOUT, lossOnlyInput, agiLoss, taxCompZero,
    creditsZero, quantize2, roundHalfUpZ]

theorem summary_loss_eval :
    run_summary_workflow lossOnlyInput incomeLoss agiLoss dedLoss taxCompZero
      creditsZero ficaZero = .ok summaryLoss := by
  rw [run_summary_workflow]
  norm_num [bind, Except.bind, pure, Except.pure, calculate_bracket_tax,
    bracketGo, FEDERAL_BRACKETS, lossOnlyInput, incomeLoss, agiLoss, dedLoss,
    taxCompZero, creditsZero, ficaZero, summaryLoss, quantize2, quantize6,
    roundHalfUpZ]

theorem full_loss_eval :
    calculate_full_tax persistAlwaysFails lossOnlyInput = .ok lossResult := by
  simp only [calculate_full_tax,
    show lossOnlyInput.filing_status = FilingStatus.single from rfl,
    income_loss_eval, fica_loss_eval, agi_loss_eval, ded_loss_eval,
    tc_loss_eval, credits_loss_eval, summary_loss_eval, except_bind_ok,
    attemptPersist_id]
  rfl

/-- C3 counterexample: a return whose only record is a $1,000 1099-B
short-term loss produces `total_income = −1000 < agi = 0`, refuting
`total_income ≥ AGI`. -/
theorem summary_income_chain_counterexample :
    calculate_full_tax persistAlwaysFails lossOnlyInput = .ok lossResult
    ∧ ¬ (lossResult.summary.agi ≤ lossResult.summary.total_income) :=
  ⟨full_loss_eval, by norm_num [lossResult, summaryLoss]⟩

theorem validCents_lossOnlyInput : ValidCentsInput lossOnlyInput := by
  refine ⟨?_, ?_, ?_, ?_, ?_, ?_, ?_, ?_, ?_, ?_, ?_, ?_, ?_, ?_, ?_, ?_,
    ?_, ?_, ?_, ?_, ?_, ?_, ?_, ?_, ?_, ?_, ?_, ?_, ?_⟩
  · intro w hw; simp [lossOnlyInput] at hw
  · intro w hw; simp [lossOnlyInput] at hw
  · intro w hw; simp [lossOnlyInput] at hw
  · intro w hw; simp [lossOnlyInput] at hw
  · intro f hf; simp [lossOnlyInput] at hf
  · intro f hf; simp [lossOnlyInput] at hf
  · intro f hf; simp [lossOnlyInput] at hf
  · intro f hf; simp [lossOnlyInput] at hf
  · intro f hf; simp [lossOnlyInput] at hf
  · intro f hf; simp [lossOnlyInput] at hf
  · intro f hf; simp [lossOnlyInput] at hf
  · intro f hf; simp [lossOnlyInput] at hf
  · intro f hf; simp [lossOnlyInput] at hf
  · intro f hf
    simp only [lossOnlyInput, List.mem_singleton] at hf
    subst hf
    exact ⟨-100000, by norm_num⟩
  · intro f hf
    simp only [lossOnlyInput, List.mem_singleton] at hf
    subst hf
    exact ⟨0, by norm_num⟩
  · intro item hitem; simp [lossOnlyInput] at hitem
  · norm_num [lossOnlyInput]
  · exact ⟨0, by norm_num [lossOnlyInput]⟩
  · norm_num [lossOnlyInput]
  · exact ⟨0, by norm_num [lossOnlyInput]⟩
  · norm_num [lossOnlyInput]
  · exact ⟨0, by norm_num [lossOnlyInput]⟩
  · norm_num [lossOnlyInput]
  · exact ⟨0, by norm_num [lossOnlyInput]⟩
  · norm_num [lossOnlyInput]
  · exact ⟨0, by norm_num [lossOnlyInput]⟩
  · norm_num [lossOnlyInput]
  · norm_num [lossOnlyInput]
  · exact ⟨0, by norm_num [lossOnlyInput]⟩

/-- Witness for C3's amended theorem at `lossOnlyInput`. -/
theorem summary_income_chain_amended_witness :
    lossResult.summary.taxable_income ≤ lossResult.summary.agi
    ∧ 0 ≤ lossResult.summary.taxable_income
    ∧ (0 ≤ lossResult.summary.total_income
        → lossResult.summary.agi ≤ lossResult.summary.total_income) :=
  summary_income_chain_amended lossOnlyInput persistAlwaysFails lossResult
    validCents_lossOnlyInput full_loss_eval
